import Mathlib

/-!
# Renderer: multi-pass ping-pong rendering (src/src/Renderer.cpp)

A shallow embedding of `Renderer.cpp`.  The renderer talks to two collaborators that
are not part of the file: the graphics API and the `ShaderPrograms` object.  Both are
modelled by a context record `GLContext` that keeps the pieces of API state the renderer
depends on (active texture unit, 2D texture bindings, bound framebuffer, colour
attachments, texture storage) together with the chronological log of every call.

Conventions
* A finite `float` is the rational it denotes.  The only float arithmetic of the file is
  `elapsed_time = count / 1e9f`; it is computed with binary32 rounding (`f32_round`).  All
  other floats are passed through to the API; the integer-to-float conversions of the
  window size and of `geom_iters` are exact below 2^24 and are written as casts.
* `int` members are integers; signed overflow is undefined in the source, so the
  theorems that increment a counter assume it is below `INT_MAX`.
* Indices and counts (`r`, `i`, `num_user_buffers`) are naturals.  A negative or too
  large index reads a vector out of bounds in the source, which is undefined; the
  embedding returns a default there, and the theorems about rendering assume that the
  render order holds valid indices.
-/

namespace MusicVisualizer

/-! ## Collaborators -/

/-- The two filter parameters set by `glTexParameteri` in the constructor. -/
inductive TexFilter where
  | GL_TEXTURE_MIN_FILTER
  | GL_TEXTURE_MAG_FILTER
deriving DecidableEq, Repr

/-- One call issued by the renderer, with the arguments that vary.  Texture calls are
on target `GL_TEXTURE_2D` unless the name says otherwise. -/
inductive GLCall where
  | glEnable_BLEND
  | glDisable_BLEND
  | glBlendFunc
  | glActiveTexture (unit : Nat)
  | glGenTextures (name : Nat)
  | glBindTexture (tex : Nat)
  | glTexImage2D (width height : Int)
  | glTexParameteri (pname : TexFilter)
  | glTexSubImage1D (data : List Rat)
  | glGenFramebuffers (name : Nat)
  | glBindFramebuffer (fbo : Nat)
  | glFramebufferTexture2D (tex : Nat)
  | glDeleteFramebuffers (names : List Nat)
  | glDeleteTextures (names : List Nat)
  | glViewport (x y width height : Int)
  | glClearColor (r g b a : Rat)
  | glClear
  | glDrawArrays (first count : Int)
  | use_program (index : Nat)
  | glUniform1i (loc : Int) (v : Int)
  | glUniform1f (loc : Int) (v0 : Rat)
  | glUniform2f (loc : Int) (v0 v1 : Rat)
  | glUniform3f (loc : Int) (v0 v1 v2 : Rat)
  | glUniform4f (loc : Int) (v0 v1 v2 v3 : Rat)
deriving DecidableEq, Repr

/-- The graphics context.  `tex_names k` and `fbo_names k` are the names the driver hands
out on the `k`-th call of `glGenTextures` / `glGenFramebuffers`. -/
structure GLContext where
  active : Nat
  tex2D : Nat → Nat
  fb : Nat
  attach : Nat → Nat
  size : Nat → Option (Int × Int)
  tex_names : Nat → Nat
  fbo_names : Nat → Nat
  tex_gen : Nat
  fbo_gen : Nat
  log : List GLCall

/-- A fresh context: unit 0 active, nothing bound, default framebuffer bound. -/
def GLContext.fresh (tex_names fbo_names : Nat → Nat) : GLContext :=
  { active := 0, tex2D := fun _ => 0, fb := 0, attach := fun _ => 0, size := fun _ => none,
    tex_names := tex_names, fbo_names := fbo_names, tex_gen := 0, fbo_gen := 0, log := [] }

/-- Append a call to the log. -/
def GLContext.emit (c : GLCall) (g : GLContext) : GLContext := { g with log := g.log ++ [c] }

def glActiveTexture (unit : Nat) (g : GLContext) : GLContext :=
  { g with active := unit, log := g.log ++ [GLCall.glActiveTexture unit] }

def glGenTextures (g : GLContext) : Nat × GLContext :=
  (g.tex_names g.tex_gen,
   { g with tex_gen := g.tex_gen + 1, log := g.log ++ [GLCall.glGenTextures (g.tex_names g.tex_gen)] })

/-- The 2D texture is bound on the unit that is active at the time of the call. -/
def glBindTexture (tex : Nat) (g : GLContext) : GLContext :=
  { g with tex2D := fun u => if u = g.active then tex else g.tex2D u,
           log := g.log ++ [GLCall.glBindTexture tex] }

/-- Storage is (re)specified for the 2D texture bound on the active unit. -/
def glTexImage2D (width height : Int) (g : GLContext) : GLContext :=
  { g with size := fun t => if t = g.tex2D g.active then some (width, height) else g.size t,
           log := g.log ++ [GLCall.glTexImage2D width height] }

def glGenFramebuffers (g : GLContext) : Nat × GLContext :=
  (g.fbo_names g.fbo_gen,
   { g with fbo_gen := g.fbo_gen + 1,
            log := g.log ++ [GLCall.glGenFramebuffers (g.fbo_names g.fbo_gen)] })

def glBindFramebuffer (fbo : Nat) (g : GLContext) : GLContext :=
  { g with fb := fbo, log := g.log ++ [GLCall.glBindFramebuffer fbo] }

/-- Colour attachment 0 of the framebuffer that is bound at the time of the call. -/
def glFramebufferTexture2D (tex : Nat) (g : GLContext) : GLContext :=
  { g with attach := fun f => if f = g.fb then tex else g.attach f,
           log := g.log ++ [GLCall.glFramebufferTexture2D tex] }

/-- Deleting the bound framebuffer rebinds the default one. -/
def glDeleteFramebuffers (names : List Nat) (g : GLContext) : GLContext :=
  { g with fb := if g.fb ∈ names then 0 else g.fb,
           log := g.log ++ [GLCall.glDeleteFramebuffers names] }

/-- Deleted textures are unbound from the units they were bound to. -/
def glDeleteTextures (names : List Nat) (g : GLContext) : GLContext :=
  { g with tex2D := fun u => if g.tex2D u ∈ names then 0 else g.tex2D u,
           size := fun t => if t ∈ names then none else g.size t,
           log := g.log ++ [GLCall.glDeleteTextures names] }

/-! ## Configuration, window and shader programs -/

structure Buffer where
  width : Int
  height : Int
  is_window_size : Bool
  clear_color : Rat × Rat × Rat
  geom_iters : Int
deriving DecidableEq, Repr, Inhabited

structure Uniform where
  values : List Rat
deriving DecidableEq, Repr, Inhabited

structure ShaderConfig where
  mBlend : Bool
  mBuffers : List Buffer
  mRender_order : List Nat
  mImage : Buffer
  mUniforms : List Uniform
deriving DecidableEq, Repr

structure Mouse where
  x : Rat
  y : Rat
  down : Bool
deriving DecidableEq, Repr

structure Window where
  width : Int
  height : Int
  size_changed : Bool
  mouse : Mouse
deriving DecidableEq, Repr

/-- The part of `ShaderPrograms` the renderer uses: the constant `num_builtin_uniforms`
and the location lookup `get_uniform_loc (program, slot)`. -/
structure ShaderPrograms where
  num_builtin_uniforms : Nat
  get_uniform_loc : Nat → Nat → Int

structure audio_data where
  audio_r : List Rat
  audio_l : List Rat
  freq_r : List Rat
  freq_l : List Rat
deriving DecidableEq, Repr

/-! ## The renderer -/

/-- The data members of `Renderer`.  `start_time` is a `steady_clock` reading in
nanoseconds; `elapsed_time` is the rational denoted by the stored `float`; `config`,
`shaders` and `window` are references and are passed to each member function instead. -/
structure Renderer where
  start_time : Int
  elapsed_time : Rat
  frame_counter : Int
  num_user_buffers : Nat
  buffers_last_drawn : List Int
  fbos : List Nat
  texs : List Nat
deriving DecidableEq, Repr

/-- A counted `for (int i = 0; i < n; ++i)` loop. -/
def forLoop {σ : Type} (n : Nat) (body : Nat → σ → σ) (s : σ) : σ :=
  (List.range n).foldl (fun acc i => body i acc) s

/-- Effective width of a buffer: the window width when it tracks the window. -/
def Buffer.eff_width (buff : Buffer) (window : Window) : Int :=
  if buff.is_window_size then window.width else buff.width

def Buffer.eff_height (buff : Buffer) (window : Window) : Int :=
  if buff.is_window_size then window.height else buff.height

/-- Body of the user-uniform loop: the `switch (uv.size())` with its four cases; any other
size falls through the switch. -/
def upload_user_uniform (shaders : ShaderPrograms) (buff_index uniform_offset i : Nat)
    (uv : List Rat) (g : GLContext) : GLContext :=
  match uv.length with
  | 1 => g.emit (GLCall.glUniform1f (shaders.get_uniform_loc buff_index (uniform_offset + i))
      (uv.getD 0 0))
  | 2 => g.emit (GLCall.glUniform2f (shaders.get_uniform_loc buff_index (uniform_offset + i))
      (uv.getD 0 0) (uv.getD 1 0))
  | 3 => g.emit (GLCall.glUniform3f (shaders.get_uniform_loc buff_index (uniform_offset + i))
      (uv.getD 0 0) (uv.getD 1 0) (uv.getD 2 0))
  | 4 => g.emit (GLCall.glUniform4f (shaders.get_uniform_loc buff_index (uniform_offset + i))
      (uv.getD 0 0) (uv.getD 1 0) (uv.getD 2 0) (uv.getD 3 0))
  | _ => g

/-- `Renderer::upload_uniforms(buff, buff_index)`. -/
def Renderer.upload_uniforms (config : ShaderConfig) (shaders : ShaderPrograms) (window : Window)
    (s : Renderer) (buff : Buffer) (buff_index : Nat) (g : GLContext) : GLContext :=
  let g := g.emit (GLCall.glUniform2f (shaders.get_uniform_loc buff_index 0)
    window.mouse.x window.mouse.y)
  let g := g.emit (GLCall.glUniform1i (shaders.get_uniform_loc buff_index 1)
    (if window.mouse.down then 1 else 0))
  let g := g.emit (GLCall.glUniform2f (shaders.get_uniform_loc buff_index 2)
    (window.width : Rat) (window.height : Rat))
  let g := g.emit (GLCall.glUniform1f (shaders.get_uniform_loc buff_index 3) s.elapsed_time)
  let g := g.emit (GLCall.glUniform1i (shaders.get_uniform_loc buff_index 4) s.frame_counter)
  let g := g.emit (GLCall.glUniform1f (shaders.get_uniform_loc buff_index 5)
    (buff.geom_iters : Rat))
  let uniform_offset := 6
  let g := forLoop 4 (fun i g =>
    g.emit (GLCall.glUniform1i (shaders.get_uniform_loc buff_index (uniform_offset + i)) i)) g
  let uniform_offset := shaders.num_builtin_uniforms
  let g := forLoop s.num_user_buffers (fun i g =>
    g.emit (GLCall.glUniform1i (shaders.get_uniform_loc buff_index (uniform_offset + i)) i)) g
  let uniform_offset := uniform_offset + config.mBuffers.length
  forLoop config.mUniforms.length (fun i g =>
    upload_user_uniform shaders buff_index uniform_offset i
      (config.mUniforms.getD i default).values g) g

/-- Body of the constructor loop for buffer `i`.  `glGenTextures(1, &tex2)` is called
twice in a row, so the first of the two names is dropped. -/
def Renderer.create_buffer (config : ShaderConfig) (window : Window) (i : Nat)
    (p : Renderer × GLContext) : Renderer × GLContext :=
  let buff := config.mBuffers.getD i default
  let width := buff.eff_width window
  let height := buff.eff_height window
  let g := glActiveTexture i p.2
  let t1 := glGenTextures g
  let g := glBindTexture t1.1 t1.2
  let g := glTexImage2D width height g
  let g := g.emit (GLCall.glTexParameteri TexFilter.GL_TEXTURE_MIN_FILTER)
  let g := g.emit (GLCall.glTexParameteri TexFilter.GL_TEXTURE_MAG_FILTER)
  let t2 := glGenTextures g
  let t2 := glGenTextures t2.2
  let g := glBindTexture t2.1 t2.2
  let g := glTexImage2D width height g
  let g := g.emit (GLCall.glTexParameteri TexFilter.GL_TEXTURE_MIN_FILTER)
  let g := g.emit (GLCall.glTexParameteri TexFilter.GL_TEXTURE_MAG_FILTER)
  let f := glGenFramebuffers g
  let g := glBindFramebuffer f.1 f.2
  let g := glFramebufferTexture2D t1.1 g
  ({ p.1 with texs := p.1.texs ++ [t1.1, t2.1], fbos := p.1.fbos ++ [f.1] }, g)

/-- `Renderer::Renderer(config, shaders, window)`.  `now` is the clock reading taken at the
end; `elapsed_time` has no initialiser in the source, `junk` is its indeterminate value. -/
def Renderer.create (config : ShaderConfig) (window : Window) (now : Int) (junk : Rat)
    (g : GLContext) : Renderer × GLContext :=
  let s : Renderer :=
    { start_time := 0, elapsed_time := junk, frame_counter := 0, num_user_buffers := 0,
      buffers_last_drawn := List.replicate config.mBuffers.length 0, fbos := [], texs := [] }
  let g := if config.mBlend then (g.emit GLCall.glEnable_BLEND).emit GLCall.glBlendFunc
           else g.emit GLCall.glDisable_BLEND
  let s := { s with num_user_buffers := config.mBuffers.length }
  let p := forLoop s.num_user_buffers (Renderer.create_buffer config window) (s, g)
  let g := glBindFramebuffer 0 p.2
  ({ p.1 with start_time := now }, g)

/-- `Renderer::~Renderer()`: the first `num_user_buffers` framebuffer names and the first
`2 * num_user_buffers` texture names are handed to the delete calls. -/
def Renderer.destroy (s : Renderer) (g : GLContext) : GLContext :=
  let g := glDeleteFramebuffers (s.fbos.take s.num_user_buffers) g
  glDeleteTextures (s.texs.take (2 * s.num_user_buffers)) g

/-- `Renderer::operator=(Renderer&& o)` on `a` with donor `o`; returns the new `a`, the
donor as it is left, and the context.  `start_time` and `elapsed_time` are not assigned.
The moved-from `buffers_last_drawn` of the donor is not cleared by the source; the
standard library leaves it empty. -/
def Renderer.move_assign (a o : Renderer) (g : GLContext) : (Renderer × Renderer) × GLContext :=
  let g := glDeleteFramebuffers (a.fbos.take a.num_user_buffers) g
  let g := glDeleteTextures (a.texs.take (2 * a.num_user_buffers)) g
  let a := { a with fbos := o.fbos, texs := o.texs, buffers_last_drawn := o.buffers_last_drawn,
                    num_user_buffers := o.num_user_buffers, frame_counter := o.frame_counter }
  let o := { o with fbos := [], texs := [], buffers_last_drawn := [], num_user_buffers := 0 }
  ((a, o), g)

/-- Body of the resize loop of `update()` for buffer `i`.  No `glActiveTexture` is issued:
the binds go to whichever unit is active. -/
def Renderer.resize_buffer (config : ShaderConfig) (window : Window) (s : Renderer) (i : Nat)
    (g : GLContext) : GLContext :=
  let buff := config.mBuffers.getD i default
  let width := buff.eff_width window
  let height := buff.eff_height window
  let g := glBindTexture (s.texs.getD (2 * i) 0) g
  let g := glTexImage2D width height g
  let g := glBindTexture (s.texs.getD (2 * i + 1) 0) g
  glTexImage2D width height g

/-- `Renderer::update()`; `now` is the clock reading taken when the size has changed. -/
def Renderer.update (config : ShaderConfig) (window : Window) (now : Int)
    (p : Renderer × GLContext) : Renderer × GLContext :=
  if window.size_changed then
    let g := forLoop config.mBuffers.length (Renderer.resize_buffer config window p.1) p.2
    ({ p.1 with frame_counter := 0, start_time := now }, g)
  else p

/-- `Renderer::update(audio_data&)`: the four 1D uploads on units 0..3, then `update()`.
The mutex is not modelled. -/
def Renderer.update_audio (config : ShaderConfig) (window : Window) (now : Int)
    (data : audio_data) (p : Renderer × GLContext) : Renderer × GLContext :=
  let g := glActiveTexture 0 p.2
  let g := g.emit (GLCall.glTexSubImage1D data.audio_r)
  let g := glActiveTexture 1 g
  let g := g.emit (GLCall.glTexSubImage1D data.audio_l)
  let g := glActiveTexture 2 g
  let g := g.emit (GLCall.glTexSubImage1D data.freq_r)
  let g := glActiveTexture 3 g
  let g := g.emit (GLCall.glTexSubImage1D data.freq_l)
  Renderer.update config window now (p.1, g)

/-- Index of the half of pair `r` that was last drawn: `2 * r + buffers_last_drawn[r]`. -/
def Renderer.read_index (s : Renderer) (r : Nat) : Nat :=
  (2 * (r : Int) + s.buffers_last_drawn.getD r 0).toNat

/-- Index of the other half: `2 * r + (buffers_last_drawn[r] + 1) % 2`, with the
truncating remainder of the source language. -/
def Renderer.write_index (s : Renderer) (r : Nat) : Nat :=
  (2 * (r : Int) + Int.tmod (s.buffers_last_drawn.getD r 0 + 1) 2).toNat

/-- A user pass of `render()` from `use_program(r)` up to and including `glClear`, that is
everything before the draw call. -/
def Renderer.pass_setup (config : ShaderConfig) (shaders : ShaderPrograms) (window : Window)
    (r : Nat) (s : Renderer) (g : GLContext) : GLContext :=
  let buff := config.mBuffers.getD r default
  let width := buff.eff_width window
  let height := buff.eff_height window
  let g := g.emit (GLCall.use_program r)
  let g := Renderer.upload_uniforms config shaders window s buff r g
  let g := glActiveTexture r g
  let g := glBindTexture (s.texs.getD (s.read_index r) 0) g
  let g := glBindFramebuffer (s.fbos.getD r 0) g
  let g := glFramebufferTexture2D (s.texs.getD (s.write_index r) 0) g
  let g := g.emit (GLCall.glViewport 0 0 width height)
  let g := g.emit (GLCall.glClearColor buff.clear_color.1 buff.clear_color.2.1
    buff.clear_color.2.2 1)
  g.emit GLCall.glClear

/-- The increment and remainder on `buffers_last_drawn[r]`. -/
def Renderer.flip (s : Renderer) (r : Nat) : Renderer :=
  let s := { s with buffers_last_drawn :=
    s.buffers_last_drawn.set r (s.buffers_last_drawn.getD r 0 + 1) }
  { s with buffers_last_drawn :=
    s.buffers_last_drawn.set r (Int.tmod (s.buffers_last_drawn.getD r 0) 2) }

/-- One iteration of the loop over `mRender_order` in `render()`. -/
def Renderer.render_pass (config : ShaderConfig) (shaders : ShaderPrograms) (window : Window)
    (r : Nat) (p : Renderer × GLContext) : Renderer × GLContext :=
  let g := Renderer.pass_setup config shaders window r p.1 p.2
  let g := g.emit (GLCall.glDrawArrays 0 (config.mBuffers.getD r default).geom_iters)
  let s := p.1.flip r
  let g := glBindTexture (s.texs.getD (s.read_index r) 0) g
  (s, g)

/-- Nearest integer, ties to the even one. -/
def round_half_even (x : Rat) : Int :=
  if x - ⌊x⌋ < 1 / 2 then ⌊x⌋
  else if 1 / 2 < x - ⌊x⌋ then ⌊x⌋ + 1
  else if ⌊x⌋ % 2 = 0 then ⌊x⌋ else ⌊x⌋ + 1

/-- Rounding of a rational to binary32: the nearest multiple of the unit in the last place,
ties to even, where the unit is `2 ^ (e - 23)` for a value in `[2 ^ e, 2 ^ (e + 1))` and
`2 ^ (-149)` in the subnormal range.  Magnitudes of `2 ^ 128` and more, which binary32 turns
into an infinity, are outside the model; the quotient of a 64-bit count by `1e9` stays far
below. -/
def f32_round (q : Rat) : Rat :=
  if q = 0 then 0
  else round_half_even (q / 2 ^ max (Int.log 2 |q| - 23) (-149))
    * 2 ^ max (Int.log 2 |q| - 23) (-149)

/-- Conversion of an integer to `float`. -/
def int_to_f32 (n : Int) : Rat := f32_round n

/-- Division of two `float` values. -/
def f32_div (a b : Rat) : Rat := f32_round (a / b)

/-- The first statement of `render()`: `elapsed_time = (now - start_time).count() / 1e9f`.
The nanosecond count is converted to `float` and divided by the `float` constant `1e9f`,
which is exactly 1000000000. -/
def Renderer.tick (now : Int) (s : Renderer) : Renderer :=
  { s with elapsed_time := f32_div (int_to_f32 (now - s.start_time)) 1000000000 }

/-- The loop over a list of render-order entries. -/
def Renderer.run_passes (config : ShaderConfig) (shaders : ShaderPrograms) (window : Window)
    (order : List Nat) (p : Renderer × GLContext) : Renderer × GLContext :=
  order.foldl (fun acc r => Renderer.render_pass config shaders window r acc) p

/-- The final pass of `render()` to the window, from `use_program(num_user_buffers)` to the
draw call. -/
def Renderer.render_image (config : ShaderConfig) (shaders : ShaderPrograms) (window : Window)
    (s : Renderer) (g : GLContext) : GLContext :=
  let g := g.emit (GLCall.use_program s.num_user_buffers)
  let buff := config.mImage
  let g := Renderer.upload_uniforms config shaders window s config.mImage s.num_user_buffers g
  let g := glBindFramebuffer 0 g
  let g := g.emit (GLCall.glViewport 0 0 window.width window.height)
  let g := g.emit (GLCall.glClearColor buff.clear_color.1 buff.clear_color.2.1
    buff.clear_color.2.2 1)
  let g := g.emit GLCall.glClear
  g.emit (GLCall.glDrawArrays 0 buff.geom_iters)

/-- `Renderer::render()`; `now` is the clock reading taken on entry. -/
def Renderer.render (config : ShaderConfig) (shaders : ShaderPrograms) (window : Window)
    (now : Int) (p : Renderer × GLContext) : Renderer × GLContext :=
  let p := Renderer.run_passes config shaders window config.mRender_order (p.1.tick now, p.2)
  let g := Renderer.render_image config shaders window p.1 p.2
  ({ p.1 with frame_counter := p.1.frame_counter + 1 }, g)

/-! ## The uniform layout as the specification words it -/

/-- The upload of one user uniform group, chosen by the shape of its value vector:
one value gives the single-float call, two the pair, three the triple, four the
quadruple, anything else nothing. -/
def user_uniform_call (shaders : ShaderPrograms) (p slot : Nat) : List Rat → List GLCall
  | [a] => [GLCall.glUniform1f (shaders.get_uniform_loc p slot) a]
  | [a, b] => [GLCall.glUniform2f (shaders.get_uniform_loc p slot) a b]
  | [a, b, c] => [GLCall.glUniform3f (shaders.get_uniform_loc p slot) a b c]
  | [a, b, c, d] => [GLCall.glUniform4f (shaders.get_uniform_loc p slot) a b c d]
  | _ => []

/-- The uploads of the user uniform groups, the first one on `slot`, the next on
`slot + 1`, and so on. -/
def user_uniform_calls (shaders : ShaderPrograms) (p : Nat) : Nat → List Uniform → List GLCall
  | _, [] => []
  | slot, u :: us =>
      user_uniform_call shaders p slot u.values ++ user_uniform_calls shaders p (slot + 1) us

/-- The fixed slot layout for pass `p` with `N` user buffers: the builtin block, the
four audio samplers, one sampler per user buffer right after the builtin block, then
the user uniforms right after the sampler block. -/
def uniform_layout (shaders : ShaderPrograms) (window : Window) (elapsed_time : Rat)
    (frame_counter geom_iters : Int) (N : Nat) (uniforms : List Uniform) (p : Nat) :
    List GLCall :=
  [ GLCall.glUniform2f (shaders.get_uniform_loc p 0) window.mouse.x window.mouse.y,
    GLCall.glUniform1i (shaders.get_uniform_loc p 1) (if window.mouse.down then 1 else 0),
    GLCall.glUniform2f (shaders.get_uniform_loc p 2) window.width window.height,
    GLCall.glUniform1f (shaders.get_uniform_loc p 3) elapsed_time,
    GLCall.glUniform1i (shaders.get_uniform_loc p 4) frame_counter,
    GLCall.glUniform1f (shaders.get_uniform_loc p 5) geom_iters,
    GLCall.glUniform1i (shaders.get_uniform_loc p 6) 0,
    GLCall.glUniform1i (shaders.get_uniform_loc p 7) 1,
    GLCall.glUniform1i (shaders.get_uniform_loc p 8) 2,
    GLCall.glUniform1i (shaders.get_uniform_loc p 9) 3 ]
  ++ (List.range N).map
      (fun i => GLCall.glUniform1i (shaders.get_uniform_loc p (shaders.num_builtin_uniforms + i)) i)
  ++ user_uniform_calls shaders p (shaders.num_builtin_uniforms + N) uniforms

/-- Several calls appended to the log at once. -/
def GLContext.emits (cs : List GLCall) (g : GLContext) : GLContext :=
  { g with log := g.log ++ cs }

/-- The calls of the final pass of `render()` as the specification words them: the
program with index `N`, the uniform layout for the image descriptor, the default render
target, a viewport of the full window, clear, and one point draw. -/
def image_calls (shaders : ShaderPrograms) (window : Window) (elapsed_time : Rat)
    (frame_counter : Int) (N : Nat) (uniforms : List Uniform) (image : Buffer) : List GLCall :=
  [GLCall.use_program N]
  ++ uniform_layout shaders window elapsed_time frame_counter image.geom_iters N uniforms N
  ++ [ GLCall.glBindFramebuffer 0,
       GLCall.glViewport 0 0 window.width window.height,
       GLCall.glClearColor image.clear_color.1 image.clear_color.2.1 image.clear_color.2.2 1,
       GLCall.glClear,
       GLCall.glDrawArrays 0 image.geom_iters ]

/-- The calls of one user pass over buffer `r`, in order: program `r`, the uniform layout,
the input texture on unit `r`, render target `r` with the other half attached, viewport,
clear, one point draw, and the rebind of the half just drawn. -/
def pass_calls (config : ShaderConfig) (shaders : ShaderPrograms) (window : Window)
    (s : Renderer) (r : Nat) : List GLCall :=
  [GLCall.use_program r]
  ++ uniform_layout shaders window s.elapsed_time s.frame_counter
      (config.mBuffers.getD r default).geom_iters s.num_user_buffers [] r
  ++ user_uniform_calls shaders r (shaders.num_builtin_uniforms + config.mBuffers.length)
      config.mUniforms
  ++ [ GLCall.glActiveTexture r,
       GLCall.glBindTexture (s.texs.getD (s.read_index r) 0),
       GLCall.glBindFramebuffer (s.fbos.getD r 0),
       GLCall.glFramebufferTexture2D (s.texs.getD (s.write_index r) 0),
       GLCall.glViewport 0 0 ((config.mBuffers.getD r default).eff_width window)
         ((config.mBuffers.getD r default).eff_height window),
       GLCall.glClearColor (config.mBuffers.getD r default).clear_color.1
         (config.mBuffers.getD r default).clear_color.2.1
         (config.mBuffers.getD r default).clear_color.2.2 1,
       GLCall.glClear,
       GLCall.glDrawArrays 0 (config.mBuffers.getD r default).geom_iters,
       GLCall.glBindTexture ((s.flip r).texs.getD ((s.flip r).read_index r) 0) ]

/-- The calls of a run of user passes. -/
def passes_calls (config : ShaderConfig) (shaders : ShaderPrograms) (window : Window) :
    List Nat → Renderer → List GLCall
  | [], _ => []
  | r :: rs, s =>
      pass_calls config shaders window s r ++ passes_calls config shaders window rs (s.flip r)

/-- The calls of the first `k` iterations of the resize loop: for each buffer in turn, both
textures of its pair are bound and respecified at the effective size of the buffer. -/
def resize_calls (config : ShaderConfig) (window : Window) (s : Renderer) : Nat → List GLCall
  | 0 => []
  | k + 1 =>
      resize_calls config window s k
      ++ [ GLCall.glBindTexture (s.texs.getD (2 * k) 0),
           GLCall.glTexImage2D ((config.mBuffers.getD k default).eff_width window)
             ((config.mBuffers.getD k default).eff_height window),
           GLCall.glBindTexture (s.texs.getD (2 * k + 1) 0),
           GLCall.glTexImage2D ((config.mBuffers.getD k default).eff_width window)
             ((config.mBuffers.getD k default).eff_height window) ]

/-- Draw calls. -/
def GLCall.is_draw : GLCall → Bool
  | GLCall.glDrawArrays _ _ => true
  | _ => false

/-- Uniform uploads. -/
def GLCall.is_uniform : GLCall → Bool
  | GLCall.glUniform1i _ _ => true
  | GLCall.glUniform1f _ _ => true
  | GLCall.glUniform2f _ _ _ => true
  | GLCall.glUniform3f _ _ _ _ => true
  | GLCall.glUniform4f _ _ _ _ _ => true
  | _ => false

/-- Storage respecifications. -/
def GLCall.is_tex_image : GLCall → Bool
  | GLCall.glTexImage2D _ _ => true
  | _ => false

/-- The calls logged in `g` after the point where the log was `g0.log`. -/
def GLContext.since (g0 g : GLContext) : List GLCall := g.log.drop g0.log.length

/-! ## Invariants and executions -/

/-- The size relation between the resource lists and the buffer count `n`. -/
def Renderer.Counts (n : Nat) (s : Renderer) : Prop :=
  s.num_user_buffers = n ∧ s.texs.length = 2 * n ∧ s.fbos.length = n
    ∧ s.buffers_last_drawn.length = n

/-- Every last-drawn index is 0 or 1. -/
def Renderer.Bits (s : Renderer) : Prop :=
  ∀ i : Nat, s.buffers_last_drawn.getD i 0 = 0 ∨ s.buffers_last_drawn.getD i 0 = 1

/-- Every entry of the render order names a configured buffer. -/
def ShaderConfig.valid_order (config : ShaderConfig) : Prop :=
  ∀ r ∈ config.mRender_order, r < config.mBuffers.length

/-- Unit `i` holds the last-drawn half of pair `i`. -/
def Renderer.bound_ok (s : Renderer) (g : GLContext) (i : Nat) : Prop :=
  g.tex2D i = s.texs.getD (s.read_index i) 0

/-- The renderer states that arise for one configuration: construction, then any number of
`update()`, `update(audio_data&)` and `render()` calls in any context, and move-assignment
from a donor that arose in the same way. -/
inductive Reachable (config : ShaderConfig) (shaders : ShaderPrograms) : Renderer → Prop
  | create (window : Window) (now : Int) (junk : Rat) (g : GLContext) :
      Reachable config shaders (Renderer.create config window now junk g).1
  | update (window : Window) (now : Int) (s : Renderer) (g : GLContext) :
      Reachable config shaders s →
      Reachable config shaders (Renderer.update config window now (s, g)).1
  | update_audio (window : Window) (now : Int) (data : audio_data) (s : Renderer)
      (g : GLContext) :
      Reachable config shaders s →
      Reachable config shaders (Renderer.update_audio config window now data (s, g)).1
  | render (window : Window) (now : Int) (s : Renderer) (g : GLContext) :
      Reachable config shaders s →
      Reachable config shaders (Renderer.render config shaders window now (s, g)).1
  | move_assign (a o : Renderer) (g : GLContext) :
      Reachable config shaders o →
      Reachable config shaders (Renderer.move_assign a o g).1.1

/-- A call of one of the per-frame member functions, with the window as it is at the call
and the clock reading the call takes. -/
inductive Op where
  | update (window : Window) (now : Int)
  | update_audio (window : Window) (now : Int) (data : audio_data)
  | render (window : Window) (now : Int)

def Op.apply (config : ShaderConfig) (shaders : ShaderPrograms) :
    Op → Renderer × GLContext → Renderer × GLContext
  | Op.update window now, p => Renderer.update config window now p
  | Op.update_audio window now data, p => Renderer.update_audio config window now data p
  | Op.render window now, p => Renderer.render config shaders window now p

def Op.is_render : Op → Bool
  | Op.render _ _ => true
  | _ => false

/-- A sequence of calls, in order. -/
def run_ops (config : ShaderConfig) (shaders : ShaderPrograms) (ops : List Op)
    (p : Renderer × GLContext) : Renderer × GLContext :=
  ops.foldl (fun acc o => o.apply config shaders acc) p

/-! ## Concrete inputs used by the examples -/

/-- A fixed-size 64 x 32 buffer. -/
def fixed_buffer : Buffer :=
  { width := 64, height := 32, is_window_size := false, clear_color := (0, 0, 0),
    geom_iters := 100 }

/-- A buffer that tracks the window size. -/
def window_buffer : Buffer :=
  { width := 64, height := 32, is_window_size := true, clear_color := (0, 0, 0),
    geom_iters := 100 }

/-- Two user buffers, render order `[0, 1]`, one user uniform with two values. -/
def scenario_config : ShaderConfig :=
  { mBlend := false, mBuffers := [window_buffer, fixed_buffer], mRender_order := [0, 1],
    mImage := window_buffer, mUniforms := [{ values := [1 / 2, 1 / 2] }] }

/-- One fixed-size user buffer. -/
def single_config : ShaderConfig :=
  { mBlend := false, mBuffers := [fixed_buffer], mRender_order := [0],
    mImage := window_buffer, mUniforms := [] }

def scenario_window : Window :=
  { width := 800, height := 600, size_changed := false, mouse := { x := 0, y := 0, down := false } }

def resized_window : Window :=
  { width := 1024, height := 768, size_changed := true, mouse := { x := 0, y := 0, down := false } }

/-- Ten builtin uniforms; the location of slot `k` of program `p` is `100 * p + k`. -/
def scenario_shaders : ShaderPrograms :=
  { num_builtin_uniforms := 10, get_uniform_loc := fun p k => 100 * (p : Int) + (k : Int) }

/-- A driver that hands out the names 1, 2, 3, ... -/
def scenario_context : GLContext := GLContext.fresh (fun k => k + 1) (fun k => k + 1)

/-- The renderer and context right after constructing for `scenario_config`. -/
def scenario_start : Renderer × GLContext :=
  Renderer.create scenario_config scenario_window 0 0 scenario_context

/-- The renderer and context right after constructing for `single_config`. -/
def single_start : Renderer × GLContext :=
  Renderer.create single_config scenario_window 0 0 scenario_context

/-- The two-buffer scenario after one frame rendered at clock reading 12. -/
def scenario_frame : Renderer × GLContext :=
  Renderer.render scenario_config scenario_shaders scenario_window 12 scenario_start

/-- Three user uniforms: a pair, a group of five values, and a single value. -/
def mixed_config : ShaderConfig :=
  { mBlend := true, mBuffers := [fixed_buffer], mRender_order := [0], mImage := window_buffer,
    mUniforms := [{ values := [1, 2] }, { values := [1, 2, 3, 4, 5] }, { values := [7] }] }

/-- A renderer with one user buffer, as construction for `mixed_config` leaves it. -/
def mixed_start : Renderer × GLContext :=
  Renderer.create mixed_config scenario_window 0 0 scenario_context

/-- A renderer whose resources are being replaced by a move-assignment. -/
def recipient : Renderer :=
  { start_time := 40, elapsed_time := 0, frame_counter := 9, num_user_buffers := 1,
    buffers_last_drawn := [1], fbos := [21], texs := [31, 32] }

/-- The two-buffer scenario with the render order reversed to `[1, 0]`. -/
def reversed_config : ShaderConfig := { scenario_config with mRender_order := [1, 0] }

/-- The reversed scenario after construction and one frame; unit 0 is the active unit. -/
def reversed_frame : Renderer × GLContext :=
  Renderer.render reversed_config scenario_shaders scenario_window 12
    (Renderer.create reversed_config scenario_window 0 0 scenario_context)

/-! ## Basic facts about the context and loops -/

theorem emit_eq_emits (c : GLCall) (g : GLContext) : g.emit c = g.emits [c] := rfl

theorem emits_emits (a b : List GLCall) (g : GLContext) :
    (g.emits a).emits b = g.emits (a ++ b) := by
  simp [GLContext.emits, List.append_assoc]

theorem emits_nil (g : GLContext) : g.emits [] = g := by
  simp [GLContext.emits]

theorem forLoop_zero {σ : Type} (body : Nat → σ → σ) (s : σ) : forLoop 0 body s = s := rfl

theorem forLoop_succ {σ : Type} (n : Nat) (body : Nat → σ → σ) (s : σ) :
    forLoop (n + 1) body s = body n (forLoop n body s) := by
  simp [forLoop, List.range_succ, List.foldl_append]

theorem forLoop_congr {σ : Type} (n : Nat) (f h : Nat → σ → σ) (s : σ)
    (hfh : ∀ i, i < n → ∀ x, f i x = h i x) : forLoop n f s = forLoop n h s := by
  induction n with
  | zero => rfl
  | succ k ih =>
    rw [forLoop_succ, forLoop_succ, ih (fun i hi x => hfh i (Nat.lt_succ_of_lt hi) x),
      hfh k (Nat.lt_succ_self k)]

theorem forLoop_emit_map (n : Nat) (c : Nat → GLCall) (g : GLContext) :
    forLoop n (fun i g => g.emit (c i)) g = g.emits ((List.range n).map c) := by
  induction n with
  | zero => simp [forLoop_zero, emits_nil]
  | succ k ih =>
    rw [forLoop_succ, ih, emit_eq_emits, emits_emits]
    simp [List.range_succ]

theorem upload_user_uniform_eq (shaders : ShaderPrograms) (p off i : Nat) (uv : List Rat)
    (g : GLContext) :
    upload_user_uniform shaders p off i uv g = g.emits (user_uniform_call shaders p (off + i) uv) := by
  match uv with
  | [] => simp [upload_user_uniform, user_uniform_call, emits_nil]
  | [a] => simp [upload_user_uniform, user_uniform_call, emit_eq_emits]
  | [a, b] => simp [upload_user_uniform, user_uniform_call, emit_eq_emits]
  | [a, b, c] => simp [upload_user_uniform, user_uniform_call, emit_eq_emits]
  | [a, b, c, d] => simp [upload_user_uniform, user_uniform_call, emit_eq_emits]
  | a :: b :: c :: d :: e :: t => simp [upload_user_uniform, user_uniform_call, emits_nil]

theorem user_uniform_calls_append (shaders : ShaderPrograms) (p : Nat) (us : List Uniform)
    (u : Uniform) (slot : Nat) :
    user_uniform_calls shaders p slot (us ++ [u])
      = user_uniform_calls shaders p slot us
        ++ user_uniform_call shaders p (slot + us.length) u.values := by
  induction us generalizing slot with
  | nil => simp [user_uniform_calls]
  | cons v vs ih =>
    simp [user_uniform_calls, ih, List.append_assoc, Nat.add_assoc, Nat.add_comm 1]

theorem forLoop_user_uniforms (shaders : ShaderPrograms) (p off : Nat) (us : List Uniform)
    (g : GLContext) :
    forLoop us.length
        (fun i g => upload_user_uniform shaders p off i (us.getD i default).values g) g
      = g.emits (user_uniform_calls shaders p off us) := by
  induction us using List.reverseRecOn with
  | nil => simp [forLoop_zero, user_uniform_calls, emits_nil]
  | append_singleton vs v ih =>
    rw [List.length_append, List.length_singleton, forLoop_succ]
    rw [forLoop_congr vs.length _
      (fun i g => upload_user_uniform shaders p off i (vs.getD i default).values g)]
    · rw [ih, upload_user_uniform_eq, emits_emits, user_uniform_calls_append]
      simp [List.getD_append_right]
    · intro i hi x
      simp [List.getD_eq_getElem?_getD, List.getElem?_append_left hi]

theorem upload_uniforms_eq (config : ShaderConfig) (shaders : ShaderPrograms) (window : Window)
    (s : Renderer) (buff : Buffer) (p : Nat) (g : GLContext) :
    Renderer.upload_uniforms config shaders window s buff p g
      = g.emits (uniform_layout shaders window s.elapsed_time s.frame_counter buff.geom_iters
          s.num_user_buffers [] p
        ++ user_uniform_calls shaders p (shaders.num_builtin_uniforms + config.mBuffers.length)
          config.mUniforms) := by
  have h4 : List.range 4 = [0, 1, 2, 3] := rfl
  simp only [Renderer.upload_uniforms, forLoop_user_uniforms, forLoop_emit_map]
  simp only [emit_eq_emits, emits_emits, uniform_layout, user_uniform_calls, h4]
  simp

/-! ## Binary32 rounding -/

theorem round_half_even_ge (k : Int) (x : Rat) (h : (k : Rat) ≤ x) : k ≤ round_half_even x := by
  have hf : k ≤ ⌊x⌋ := Int.le_floor.mpr h
  unfold round_half_even
  split_ifs <;> omega

theorem round_half_even_eq (m : Int) (x : Rat) (h1 : (m : Rat) - 1 / 2 < x)
    (h2 : x < m + 1 / 2) : round_half_even x = m := by
  have hf1 : m - 1 ≤ ⌊x⌋ := Int.le_floor.mpr (by push_cast; linarith)
  have hf2 : ⌊x⌋ < m + 1 := Int.floor_lt.mpr (by push_cast; linarith)
  have hfl : (⌊x⌋ : Rat) ≤ x := Int.floor_le x
  have hlt : x < ⌊x⌋ + 1 := Int.lt_floor_add_one x
  rcases (by omega : ⌊x⌋ = m ∨ ⌊x⌋ = m - 1) with h | h
  · unfold round_half_even
    rw [h]
    rw [if_pos (by linarith)]
  · unfold round_half_even
    rw [h]
    have hc : ((m - 1 : Int) : Rat) = (m : Rat) - 1 := by push_cast; ring
    rw [if_neg (by rw [hc]; linarith), if_pos (by rw [hc]; linarith)]
    omega

theorem f32_round_eval (q : Rat) (e m : Int) (hq : q ≠ 0) (hlo : (2 : Rat) ^ e ≤ |q|)
    (hhi : |q| < (2 : Rat) ^ (e + 1)) (he : -149 ≤ e - 23)
    (h1 : (m : Rat) - 1 / 2 < q / 2 ^ (e - 23)) (h2 : q / 2 ^ (e - 23) < m + 1 / 2) :
    f32_round q = m * 2 ^ (e - 23) := by
  have hpos : 0 < |q| := abs_pos.mpr hq
  have hlog : Int.log 2 |q| = e := by
    have a1 : e ≤ Int.log 2 |q| := (Int.zpow_le_iff_le_log (by norm_num) hpos).mp (by exact_mod_cast hlo)
    have a2 : Int.log 2 |q| < e + 1 := (Int.lt_zpow_iff_log_lt (by norm_num) hpos).mp (by exact_mod_cast hhi)
    omega
  unfold f32_round
  rw [if_neg hq, hlog, max_eq_left he, round_half_even_eq m _ h1 h2]

theorem f32_round_pos (q : Rat) (h : (2 : Rat) ^ (-149 : Int) ≤ q) : 0 < f32_round q := by
  have h149 : (0 : Rat) < 2 ^ (-149 : Int) := by positivity
  have hq : 0 < q := lt_of_lt_of_le h149 h
  have habs : |q| = q := abs_of_pos hq
  have hu : (0 : Rat) < 2 ^ max (Int.log 2 |q| - 23) (-149) := by positivity
  have hle : (2 : Rat) ^ max (Int.log 2 |q| - 23) (-149) ≤ q := by
    rcases le_total (Int.log 2 |q| - 23) (-149) with hc | hc
    · rw [max_eq_right hc]; exact h
    · rw [max_eq_left hc]
      have h3 : (2 : Rat) ^ Int.log 2 |q| ≤ |q| := by
        exact_mod_cast Int.zpow_log_le_self (b := 2) (by norm_num) (abs_pos.mpr (ne_of_gt hq))
      have h4 : (2 : Rat) ^ (Int.log 2 |q| - 23) ≤ 2 ^ Int.log 2 |q| :=
        zpow_le_zpow_right₀ (by norm_num) (by omega)
      rw [habs] at h3 h4 ⊢
      linarith
  have hone : ((1 : Int) : Rat) ≤ q / 2 ^ max (Int.log 2 |q| - 23) (-149) := by
    rw [Int.cast_one, le_div_iff₀ hu]
    linarith
  have hm := round_half_even_ge 1 _ hone
  unfold f32_round
  rw [if_neg (ne_of_gt hq)]
  have hm2 : (0 : Rat) < (round_half_even (q / 2 ^ max (Int.log 2 |q| - 23) (-149)) : Rat) := by
    exact_mod_cast (by omega : 0 < round_half_even (q / 2 ^ max (Int.log 2 |q| - 23) (-149)))
  positivity

theorem f32_round_ge_one (q : Rat) (h : 1 ≤ q) : 1 ≤ f32_round q := by
  have hq : 0 < q := by linarith
  have habs : |q| = q := abs_of_pos hq
  have hlog : 0 ≤ Int.log 2 |q| := by
    rw [habs]
    exact (Int.zpow_le_iff_le_log (by norm_num) hq).mp (by simpa using h)
  have hmax : max (Int.log 2 |q| - 23) (-149) = Int.log 2 |q| - 23 := max_eq_left (by omega)
  have hu : (0 : Rat) < 2 ^ (Int.log 2 |q| - 23) := by positivity
  have h3 : (2 : Rat) ^ Int.log 2 |q| ≤ q := by
    have := Int.zpow_log_le_self (R := Rat) (b := 2) (by norm_num) (abs_pos.mpr (ne_of_gt hq))
    rw [habs] at this ⊢
    exact_mod_cast this
  have hsplit : (2 : Rat) ^ Int.log 2 |q| = 2 ^ (23 : Int) * 2 ^ (Int.log 2 |q| - 23) := by
    rw [← zpow_add₀ (by norm_num : (2 : Rat) ≠ 0)]
    congr 1
    omega
  have hk : (((2 : Int) ^ 23 : Int) : Rat) ≤ q / 2 ^ (Int.log 2 |q| - 23) := by
    rw [le_div_iff₀ hu]
    have : (((2 : Int) ^ 23 : Int) : Rat) = 2 ^ (23 : Int) := by norm_num
    rw [this, ← hsplit]
    exact h3
  have hm := round_half_even_ge _ _ hk
  unfold f32_round
  rw [if_neg (ne_of_gt hq), hmax]
  have hm2 : (2 : Rat) ^ (23 : Int) ≤ (round_half_even (q / 2 ^ (Int.log 2 |q| - 23)) : Rat) := by
    have : (((2 : Int) ^ 23 : Int) : Rat) = 2 ^ (23 : Int) := by norm_num
    rw [← this]
    exact_mod_cast hm
  have h1 : (1 : Rat) ≤ 2 ^ Int.log 2 |q| := one_le_zpow₀ (by norm_num) hlog
  calc (1 : Rat) ≤ 2 ^ Int.log 2 |q| := h1
    _ = 2 ^ (23 : Int) * 2 ^ (Int.log 2 |q| - 23) := hsplit
    _ ≤ _ := mul_le_mul_of_nonneg_right hm2 (le_of_lt hu)

theorem f32_round_zero : f32_round 0 = 0 := by simp [f32_round]

theorem elapsed_of_zero : f32_div (int_to_f32 0) 1000000000 = 0 := by
  simp [f32_div, int_to_f32, f32_round_zero]

theorem elapsed_of_pos (c : Int) (hc : 0 < c) : f32_div (int_to_f32 c) 1000000000 ≠ 0 := by
  have h1 : (1 : Rat) ≤ (c : Rat) := by exact_mod_cast hc
  have h2 := f32_round_ge_one _ h1
  have h3 : (2 : Rat) ^ (-149 : Int) ≤ f32_round (c : Rat) / 1000000000 := by
    rw [le_div_iff₀ (by norm_num)]
    have : (2 : Rat) ^ (-149 : Int) * 1000000000 ≤ 1 := by
      rw [zpow_neg, inv_mul_le_iff₀ (by positivity)]
      norm_num
    linarith
  exact ne_of_gt (f32_round_pos _ h3)

/-! ## The last-drawn indices -/

theorem flip_fields (s : Renderer) (r : Nat) :
    (s.flip r).texs = s.texs ∧ (s.flip r).fbos = s.fbos
      ∧ (s.flip r).num_user_buffers = s.num_user_buffers
      ∧ (s.flip r).frame_counter = s.frame_counter
      ∧ (s.flip r).start_time = s.start_time
      ∧ (s.flip r).elapsed_time = s.elapsed_time
      ∧ (s.flip r).buffers_last_drawn.length = s.buffers_last_drawn.length := by
  simp [Renderer.flip]

theorem flip_getD (s : Renderer) (r i : Nat) :
    (s.flip r).buffers_last_drawn.getD i 0
      = if i = r ∧ r < s.buffers_last_drawn.length
        then Int.tmod (s.buffers_last_drawn.getD r 0 + 1) 2
        else s.buffers_last_drawn.getD i 0 := by
  by_cases hir : i = r
  · subst hir
    by_cases hlt : i < s.buffers_last_drawn.length
    · simp [Renderer.flip, hlt]
    · have hge : s.buffers_last_drawn.length ≤ i := Nat.le_of_not_lt hlt
      simp [Renderer.flip, List.getElem?_set, hlt, List.getElem?_eq_none hge]
  · have hne : r ≠ i := fun h => hir h.symm
    simp [Renderer.flip, hir, hne]

theorem tmod_succ_bit (v : Int) (hv : v = 0 ∨ v = 1) :
    Int.tmod (v + 1) 2 = (v + 1) % 2 ∧ (Int.tmod (v + 1) 2 = 0 ∨ Int.tmod (v + 1) 2 = 1) := by
  rcases hv with h | h <;> subst h <;> decide

theorem flip_bits (s : Renderer) (r : Nat) (hb : s.Bits) : (s.flip r).Bits := by
  intro i
  rw [flip_getD]
  split
  · exact (tmod_succ_bit _ (hb r)).2
  · exact hb i

theorem render_pass_fst (config : ShaderConfig) (shaders : ShaderPrograms) (window : Window)
    (r : Nat) (p : Renderer × GLContext) :
    (Renderer.render_pass config shaders window r p).1 = p.1.flip r := rfl

theorem run_passes_nil (config : ShaderConfig) (shaders : ShaderPrograms) (window : Window)
    (p : Renderer × GLContext) : Renderer.run_passes config shaders window [] p = p := rfl

theorem run_passes_cons (config : ShaderConfig) (shaders : ShaderPrograms) (window : Window)
    (r : Nat) (rs : List Nat) (p : Renderer × GLContext) :
    Renderer.run_passes config shaders window (r :: rs) p
      = Renderer.run_passes config shaders window rs
          (Renderer.render_pass config shaders window r p) := rfl

/-- What a run of passes leaves alone, and the invariants it keeps. -/
theorem run_passes_fields (config : ShaderConfig) (shaders : ShaderPrograms) (window : Window)
    (order : List Nat) (p : Renderer × GLContext) :
    (Renderer.run_passes config shaders window order p).1.texs = p.1.texs
      ∧ (Renderer.run_passes config shaders window order p).1.fbos = p.1.fbos
      ∧ (Renderer.run_passes config shaders window order p).1.num_user_buffers
          = p.1.num_user_buffers
      ∧ (Renderer.run_passes config shaders window order p).1.frame_counter = p.1.frame_counter
      ∧ (Renderer.run_passes config shaders window order p).1.start_time = p.1.start_time
      ∧ (Renderer.run_passes config shaders window order p).1.elapsed_time = p.1.elapsed_time
      ∧ (Renderer.run_passes config shaders window order p).1.buffers_last_drawn.length
          = p.1.buffers_last_drawn.length := by
  induction order generalizing p with
  | nil => simp [run_passes_nil]
  | cons r rs ih =>
    rw [run_passes_cons]
    obtain ⟨a1, a2, a3, a4, a5, a6, a7⟩ := ih (Renderer.render_pass config shaders window r p)
    obtain ⟨f1, f2, f3, f4, f5, f6, f7⟩ := flip_fields p.1 r
    rw [render_pass_fst] at a1 a2 a3 a4 a5 a6 a7
    exact ⟨a1.trans f1, a2.trans f2, a3.trans f3, a4.trans f4, a5.trans f5, a6.trans f6,
      a7.trans f7⟩

theorem run_passes_bits (config : ShaderConfig) (shaders : ShaderPrograms) (window : Window)
    (order : List Nat) (p : Renderer × GLContext) (hb : p.1.Bits) :
    (Renderer.run_passes config shaders window order p).1.Bits := by
  induction order generalizing p with
  | nil => simpa [run_passes_nil] using hb
  | cons r rs ih =>
    rw [run_passes_cons]
    exact ih _ (by rw [render_pass_fst]; exact flip_bits p.1 r hb)

theorem run_passes_counts (config : ShaderConfig) (shaders : ShaderPrograms) (window : Window)
    (order : List Nat) (p : Renderer × GLContext) (n : Nat) (hc : p.1.Counts n) :
    (Renderer.run_passes config shaders window order p).1.Counts n := by
  obtain ⟨h1, h2, h3, h4⟩ := hc
  obtain ⟨f1, f2, f3, _, _, _, f7⟩ := run_passes_fields config shaders window order p
  exact ⟨by rw [f3, h1], by rw [f1, h2], by rw [f2, h3], by rw [f7, h4]⟩

/-- Parity of the last-drawn index after a run of passes. -/
theorem run_passes_parity (config : ShaderConfig) (shaders : ShaderPrograms) (window : Window)
    (order : List Nat) (p : Renderer × GLContext) (hb : p.1.Bits)
    (hv : ∀ r ∈ order, r < p.1.buffers_last_drawn.length) (i : Nat) :
    (Renderer.run_passes config shaders window order p).1.buffers_last_drawn.getD i 0
      = (p.1.buffers_last_drawn.getD i 0 + (order.count i : Int)) % 2 := by
  induction order generalizing p with
  | nil =>
    rw [run_passes_nil]
    rcases hb i with h | h <;> rw [h] <;> simp
  | cons r rs ih =>
    rw [run_passes_cons]
    have hb2 : (Renderer.render_pass config shaders window r p).1.Bits := by
      rw [render_pass_fst]; exact flip_bits p.1 r hb
    have hlen : (Renderer.render_pass config shaders window r p).1.buffers_last_drawn.length
        = p.1.buffers_last_drawn.length := by
      rw [render_pass_fst]; exact (flip_fields p.1 r).2.2.2.2.2.2
    have hv2 : ∀ x ∈ rs,
        x < (Renderer.render_pass config shaders window r p).1.buffers_last_drawn.length := by
      intro x hx
      rw [hlen]
      exact hv x (List.mem_cons_of_mem r hx)
    rw [ih _ hb2 hv2, render_pass_fst, flip_getD, List.count_cons]
    have hr : r < p.1.buffers_last_drawn.length := hv r (List.mem_cons_self r rs)
    by_cases hir : i = r
    · subst hir
      have ht := (tmod_succ_bit _ (hb i)).1
      simp only [hr, and_self, if_true, ht, beq_self_eq_true]
      push_cast
      omega
    · have hne : ¬ (r = i) := fun h => hir h.symm
      simp [hir, hne]

/-! ## Construction, update, render and move-assignment on the renderer members -/

theorem create_buffer_fst (config : ShaderConfig) (window : Window) (i : Nat)
    (p : Renderer × GLContext) :
    (Renderer.create_buffer config window i p).1
      = { p.1 with
          texs := p.1.texs ++ [p.2.tex_names p.2.tex_gen, p.2.tex_names (p.2.tex_gen + 2)],
          fbos := p.1.fbos ++ [p.2.fbo_names p.2.fbo_gen] } := by
  simp [Renderer.create_buffer, glActiveTexture, glGenTextures, glBindTexture, glTexImage2D,
    GLContext.emit, glGenFramebuffers]

theorem create_buffer_tex2D (config : ShaderConfig) (window : Window) (i : Nat)
    (p : Renderer × GLContext) (u : Nat) :
    (Renderer.create_buffer config window i p).2.tex2D u
      = if u = i then p.2.tex_names (p.2.tex_gen + 2) else p.2.tex2D u := by
  by_cases h : u = i <;>
  simp [Renderer.create_buffer, glActiveTexture, glGenTextures, glBindTexture, glTexImage2D,
    GLContext.emit, glGenFramebuffers, glBindFramebuffer, glFramebufferTexture2D, h]

/-- The constructor loop after `n` iterations. -/
theorem create_loop (config : ShaderConfig) (window : Window) (n : Nat)
    (p : Renderer × GLContext) :
    (forLoop n (Renderer.create_buffer config window) p).1.texs.length
        = p.1.texs.length + 2 * n
      ∧ (forLoop n (Renderer.create_buffer config window) p).1.fbos.length
        = p.1.fbos.length + n
      ∧ (forLoop n (Renderer.create_buffer config window) p).1.buffers_last_drawn
        = p.1.buffers_last_drawn
      ∧ (forLoop n (Renderer.create_buffer config window) p).1.num_user_buffers
        = p.1.num_user_buffers
      ∧ (forLoop n (Renderer.create_buffer config window) p).1.frame_counter
        = p.1.frame_counter
      ∧ (forLoop n (Renderer.create_buffer config window) p).1.elapsed_time
        = p.1.elapsed_time := by
  induction n with
  | zero => simp [forLoop_zero]
  | succ k ih =>
    obtain ⟨h1, h2, h3, h4, h5, h6⟩ := ih
    rw [forLoop_succ, create_buffer_fst]
    simp only [List.length_append, List.length_cons, List.length_nil, h1, h2, h3, h4, h5, h6]
    refine ⟨by omega, by omega, trivial, trivial, trivial, trivial⟩

/-- After `n` iterations of the constructor loop, unit `i` holds the second texture of
pair `i`. -/
theorem create_loop_bound (config : ShaderConfig) (window : Window) (n : Nat)
    (p : Renderer × GLContext) (hp : p.1.texs = []) (i : Nat) (hi : i < n) :
    (forLoop n (Renderer.create_buffer config window) p).2.tex2D i
      = (forLoop n (Renderer.create_buffer config window) p).1.texs.getD (2 * i + 1) 0 := by
  induction n with
  | zero => omega
  | succ k ih =>
    have hlen := (create_loop config window k p).1
    rw [hp] at hlen
    simp only [List.length_nil, Nat.zero_add] at hlen
    rw [forLoop_succ, create_buffer_tex2D, create_buffer_fst]
    simp only [List.getD_eq_getElem?_getD]
    by_cases hik : i = k
    · subst hik
      have h1 : (forLoop i (Renderer.create_buffer config window) p).1.texs.length
          ≤ 2 * i + 1 := by omega
      rw [if_pos rfl, List.getElem?_append_right h1, hlen]
      have h2 : 2 * i + 1 - 2 * i = 1 := by omega
      simp [h2]
    · have hlt : i < k := by omega
      have h1 : 2 * i + 1 < (forLoop k (Renderer.create_buffer config window) p).1.texs.length := by
        omega
      rw [if_neg hik, List.getElem?_append_left h1, ih hlt]
      simp only [List.getD_eq_getElem?_getD]

theorem create_fields (config : ShaderConfig) (window : Window) (now : Int) (junk : Rat)
    (g : GLContext) :
    (Renderer.create config window now junk g).1.num_user_buffers = config.mBuffers.length
      ∧ (Renderer.create config window now junk g).1.texs.length = 2 * config.mBuffers.length
      ∧ (Renderer.create config window now junk g).1.fbos.length = config.mBuffers.length
      ∧ (Renderer.create config window now junk g).1.buffers_last_drawn
          = List.replicate config.mBuffers.length 0
      ∧ (Renderer.create config window now junk g).1.frame_counter = 0
      ∧ (Renderer.create config window now junk g).1.start_time = now := by
  simp only [Renderer.create]
  refine ⟨?_, ?_, ?_, ?_, ?_, trivial⟩
  · exact (create_loop config window _ _).2.2.2.1
  · rw [(create_loop config window _ _).1]; simp
  · rw [(create_loop config window _ _).2.1]; simp
  · exact (create_loop config window _ _).2.2.1
  · exact (create_loop config window _ _).2.2.2.2.1

theorem replicate_zero_getD (n i : Nat) : (List.replicate n (0 : Int)).getD i 0 = 0 := by
  simp only [List.getD_eq_getElem?_getD, List.getElem?_replicate]
  split <;> rfl

theorem create_counts (config : ShaderConfig) (window : Window) (now : Int) (junk : Rat)
    (g : GLContext) :
    (Renderer.create config window now junk g).1.Counts config.mBuffers.length := by
  obtain ⟨h1, h2, h3, h4, _, _⟩ := create_fields config window now junk g
  exact ⟨h1, h2, h3, by rw [h4]; simp⟩

theorem create_bits (config : ShaderConfig) (window : Window) (now : Int) (junk : Rat)
    (g : GLContext) : (Renderer.create config window now junk g).1.Bits := by
  intro i
  rw [(create_fields config window now junk g).2.2.2.1, replicate_zero_getD]
  exact Or.inl rfl

theorem update_fst (config : ShaderConfig) (window : Window) (now : Int)
    (p : Renderer × GLContext) :
    (Renderer.update config window now p).1
      = if window.size_changed then { p.1 with frame_counter := 0, start_time := now }
        else p.1 := by
  unfold Renderer.update
  split <;> rfl

theorem update_audio_fst (config : ShaderConfig) (window : Window) (now : Int)
    (data : audio_data) (p : Renderer × GLContext) :
    (Renderer.update_audio config window now data p).1
      = if window.size_changed then { p.1 with frame_counter := 0, start_time := now }
        else p.1 := by
  unfold Renderer.update_audio
  simp only [update_fst]

theorem render_fst (config : ShaderConfig) (shaders : ShaderPrograms) (window : Window)
    (now : Int) (p : Renderer × GLContext) :
    (Renderer.render config shaders window now p).1
      = { (Renderer.run_passes config shaders window config.mRender_order
            (p.1.tick now, p.2)).1 with
          frame_counter := (Renderer.run_passes config shaders window config.mRender_order
            (p.1.tick now, p.2)).1.frame_counter + 1 } := rfl

theorem counts_of_eq (n : Nat) (s t : Renderer) (hc : s.Counts n)
    (h1 : t.num_user_buffers = s.num_user_buffers) (h2 : t.texs = s.texs)
    (h3 : t.fbos = s.fbos) (h4 : t.buffers_last_drawn = s.buffers_last_drawn) :
    t.Counts n := by
  unfold Renderer.Counts at hc ⊢
  rw [h1, h2, h3, h4]
  exact hc

theorem bits_of_eq (s t : Renderer) (hb : s.Bits)
    (h4 : t.buffers_last_drawn = s.buffers_last_drawn) : t.Bits := by
  unfold Renderer.Bits at hb ⊢
  rw [h4]
  exact hb

theorem update_members (config : ShaderConfig) (window : Window) (now : Int)
    (p : Renderer × GLContext) :
    (Renderer.update config window now p).1.num_user_buffers = p.1.num_user_buffers
      ∧ (Renderer.update config window now p).1.texs = p.1.texs
      ∧ (Renderer.update config window now p).1.fbos = p.1.fbos
      ∧ (Renderer.update config window now p).1.buffers_last_drawn = p.1.buffers_last_drawn
      ∧ (Renderer.update config window now p).1.elapsed_time = p.1.elapsed_time := by
  rw [update_fst]
  split <;> simp

theorem update_audio_members (config : ShaderConfig) (window : Window) (now : Int)
    (data : audio_data) (p : Renderer × GLContext) :
    (Renderer.update_audio config window now data p).1.num_user_buffers = p.1.num_user_buffers
      ∧ (Renderer.update_audio config window now data p).1.texs = p.1.texs
      ∧ (Renderer.update_audio config window now data p).1.fbos = p.1.fbos
      ∧ (Renderer.update_audio config window now data p).1.buffers_last_drawn
          = p.1.buffers_last_drawn
      ∧ (Renderer.update_audio config window now data p).1.elapsed_time = p.1.elapsed_time := by
  rw [update_audio_fst]
  split <;> simp

theorem render_counts (config : ShaderConfig) (shaders : ShaderPrograms) (window : Window)
    (now : Int) (p : Renderer × GLContext) (n : Nat) (hc : p.1.Counts n) :
    (Renderer.render config shaders window now p).1.Counts n := by
  have h := run_passes_counts config shaders window config.mRender_order (p.1.tick now, p.2) n
    (counts_of_eq n p.1 _ hc rfl rfl rfl rfl)
  exact counts_of_eq n _ _ h rfl rfl rfl rfl

theorem render_bits (config : ShaderConfig) (shaders : ShaderPrograms) (window : Window)
    (now : Int) (p : Renderer × GLContext) (hb : p.1.Bits) :
    (Renderer.render config shaders window now p).1.Bits := by
  have h := run_passes_bits config shaders window config.mRender_order (p.1.tick now, p.2)
    (bits_of_eq p.1 _ hb rfl)
  exact bits_of_eq _ _ h rfl

/-- Every reachable renderer has resource lists of the configured sizes and last-drawn
indices that are 0 or 1. -/
theorem reachable_inv (config : ShaderConfig) (shaders : ShaderPrograms) (s : Renderer)
    (hs : Reachable config shaders s) : s.Counts config.mBuffers.length ∧ s.Bits := by
  induction hs with
  | create window now junk g =>
    exact ⟨create_counts config window now junk g, create_bits config window now junk g⟩
  | update window now s g _ ih =>
    obtain ⟨h1, h2, h3, h4, _⟩ := update_members config window now (s, g)
    exact ⟨counts_of_eq _ s _ ih.1 h1 h2 h3 h4, bits_of_eq s _ ih.2 h4⟩
  | update_audio window now data s g _ ih =>
    obtain ⟨h1, h2, h3, h4, _⟩ := update_audio_members config window now data (s, g)
    exact ⟨counts_of_eq _ s _ ih.1 h1 h2 h3 h4, bits_of_eq s _ ih.2 h4⟩
  | render window now s g _ ih =>
    exact ⟨render_counts config shaders window now (s, g) _ ih.1,
      render_bits config shaders window now (s, g) ih.2⟩
  | move_assign a o g _ ih =>
    exact ⟨counts_of_eq _ o _ ih.1 rfl rfl rfl rfl, bits_of_eq o _ ih.2 rfl⟩

/-! ## Effect of a pass on the context -/

theorem pass_setup_state (config : ShaderConfig) (shaders : ShaderPrograms) (window : Window)
    (r : Nat) (s : Renderer) (g : GLContext) :
    (Renderer.pass_setup config shaders window r s g).active = r
      ∧ (Renderer.pass_setup config shaders window r s g).fb = s.fbos.getD r 0
      ∧ (∀ u, (Renderer.pass_setup config shaders window r s g).tex2D u
          = if u = r then s.texs.getD (s.read_index r) 0 else g.tex2D u)
      ∧ (∀ f, (Renderer.pass_setup config shaders window r s g).attach f
          = if f = s.fbos.getD r 0 then s.texs.getD (s.write_index r) 0 else g.attach f) := by
  simp only [Renderer.pass_setup, upload_uniforms_eq]
  simp [GLContext.emit, GLContext.emits, glActiveTexture, glBindTexture, glBindFramebuffer,
    glFramebufferTexture2D]

theorem render_pass_state (config : ShaderConfig) (shaders : ShaderPrograms) (window : Window)
    (r : Nat) (p : Renderer × GLContext) :
    (Renderer.render_pass config shaders window r p).2.active = r
      ∧ (∀ u, (Renderer.render_pass config shaders window r p).2.tex2D u
          = if u = r then (p.1.flip r).texs.getD ((p.1.flip r).read_index r) 0
            else p.2.tex2D u) := by
  have h := pass_setup_state config shaders window r p.1 p.2
  obtain ⟨h1, _, h3, _⟩ := h
  constructor
  · simp [Renderer.render_pass, GLContext.emit, glBindTexture, h1]
  · intro u
    by_cases hu : u = r
    · simp [Renderer.render_pass, GLContext.emit, glBindTexture, h1, hu]
    · simp [Renderer.render_pass, GLContext.emit, glBindTexture, h1, hu, h3]

theorem render_pass_log (config : ShaderConfig) (shaders : ShaderPrograms) (window : Window)
    (r : Nat) (p : Renderer × GLContext) :
    (Renderer.render_pass config shaders window r p).2.log
      = p.2.log ++ pass_calls config shaders window p.1 r := by
  simp only [Renderer.render_pass, Renderer.pass_setup, upload_uniforms_eq]
  simp [GLContext.emit, GLContext.emits, glActiveTexture, glBindTexture, glBindFramebuffer,
    glFramebufferTexture2D, pass_calls, List.append_assoc]

theorem run_passes_log (config : ShaderConfig) (shaders : ShaderPrograms) (window : Window)
    (order : List Nat) (p : Renderer × GLContext) :
    (Renderer.run_passes config shaders window order p).2.log
      = p.2.log ++ passes_calls config shaders window order p.1 := by
  induction order generalizing p with
  | nil => simp [run_passes_nil, passes_calls]
  | cons r rs ih =>
    rw [run_passes_cons, ih, render_pass_log, render_pass_fst]
    simp [passes_calls, List.append_assoc]

theorem render_image_log (config : ShaderConfig) (shaders : ShaderPrograms) (window : Window)
    (s : Renderer) (g : GLContext) (hn : s.num_user_buffers = config.mBuffers.length) :
    (Renderer.render_image config shaders window s g).log
      = g.log ++ image_calls shaders window s.elapsed_time s.frame_counter s.num_user_buffers
          config.mUniforms config.mImage := by
  simp only [Renderer.render_image, upload_uniforms_eq]
  simp [GLContext.emit, GLContext.emits, glBindFramebuffer, image_calls, uniform_layout,
    user_uniform_calls, List.append_assoc, hn]

/-! ## Counting calls -/

theorem user_uniform_call_uniform (shaders : ShaderPrograms) (p slot : Nat) (uv : List Rat) :
    ∀ c ∈ user_uniform_call shaders p slot uv, c.is_uniform = true := by
  match uv with
  | [] => simp [user_uniform_call]
  | [a] => simp [user_uniform_call, GLCall.is_uniform]
  | [a, b] => simp [user_uniform_call, GLCall.is_uniform]
  | [a, b, c] => simp [user_uniform_call, GLCall.is_uniform]
  | [a, b, c, d] => simp [user_uniform_call, GLCall.is_uniform]
  | a :: b :: c :: d :: e :: t => simp [user_uniform_call]

theorem user_uniform_calls_uniform (shaders : ShaderPrograms) (p : Nat) (us : List Uniform)
    (slot : Nat) : ∀ c ∈ user_uniform_calls shaders p slot us, c.is_uniform = true := by
  induction us generalizing slot with
  | nil => simp [user_uniform_calls]
  | cons u us ih =>
    intro c hc
    simp only [user_uniform_calls, List.mem_append] at hc
    rcases hc with h | h
    · exact user_uniform_call_uniform shaders p slot u.values c h
    · exact ih (slot + 1) c h

theorem uniform_layout_uniform (shaders : ShaderPrograms) (window : Window) (e : Rat)
    (fc gi : Int) (N : Nat) (us : List Uniform) (p : Nat) :
    ∀ c ∈ uniform_layout shaders window e fc gi N us p, c.is_uniform = true := by
  intro c hc
  simp only [uniform_layout, List.mem_append, List.mem_map, List.mem_cons] at hc
  rcases hc with (h | h) | h
  · rcases h with h | h | h | h | h | h | h | h | h | h | h
    all_goals first | (subst h; rfl) | (simp at h)
  · obtain ⟨i, _, rfl⟩ := h
    rfl
  · exact user_uniform_calls_uniform shaders p us _ c h

theorem pass_calls_draws (config : ShaderConfig) (shaders : ShaderPrograms) (window : Window)
    (s : Renderer) (r : Nat) :
    (pass_calls config shaders window s r).countP GLCall.is_draw = 1 := by
  have h1 : (uniform_layout shaders window s.elapsed_time s.frame_counter
      (config.mBuffers.getD r default).geom_iters s.num_user_buffers [] r).countP
      GLCall.is_draw = 0 := by
    rw [List.countP_eq_zero]
    intro c hc hd
    have := uniform_layout_uniform _ _ _ _ _ _ _ _ c hc
    cases c <;> simp_all [GLCall.is_draw, GLCall.is_uniform]
  have h2 : (user_uniform_calls shaders r (shaders.num_builtin_uniforms + config.mBuffers.length)
      config.mUniforms).countP GLCall.is_draw = 0 := by
    rw [List.countP_eq_zero]
    intro c hc hd
    have := user_uniform_calls_uniform _ _ _ _ c hc
    cases c <;> simp_all [GLCall.is_draw, GLCall.is_uniform]
  simp only [pass_calls, List.countP_append, h1, h2]
  simp [List.countP_cons, GLCall.is_draw]

theorem pass_calls_programs (config : ShaderConfig) (shaders : ShaderPrograms) (window : Window)
    (s : Renderer) (r n : Nat) (hrn : r ≠ n) :
    (pass_calls config shaders window s r).count (GLCall.use_program n) = 0 := by
  rw [List.count_eq_zero]
  intro hc
  simp only [pass_calls, List.mem_append, List.mem_cons, List.mem_singleton] at hc
  rcases hc with ((h | h) | h) | h
  · simp at h
    exact hrn h.symm
  · have := uniform_layout_uniform _ _ _ _ _ _ _ _ _ h
    simp [GLCall.is_uniform] at this
  · have := user_uniform_calls_uniform _ _ _ _ _ h
    simp [GLCall.is_uniform] at this
  · simp at h

theorem passes_calls_draws (config : ShaderConfig) (shaders : ShaderPrograms) (window : Window)
    (order : List Nat) (s : Renderer) :
    (passes_calls config shaders window order s).countP GLCall.is_draw = order.length := by
  induction order generalizing s with
  | nil => simp [passes_calls]
  | cons r rs ih =>
    simp only [passes_calls, List.countP_append, pass_calls_draws, ih, List.length_cons]
    omega

theorem passes_calls_programs (config : ShaderConfig) (shaders : ShaderPrograms)
    (window : Window) (order : List Nat) (s : Renderer) (n : Nat) (hn : ∀ r ∈ order, r < n) :
    (passes_calls config shaders window order s).count (GLCall.use_program n) = 0 := by
  induction order generalizing s with
  | nil => simp [passes_calls]
  | cons r rs ih =>
    have hr : r ≠ n := Nat.ne_of_lt (hn r (List.mem_cons_self r rs))
    simp only [passes_calls, List.count_append, pass_calls_programs _ _ _ _ _ _ hr,
      ih _ (fun x hx => hn x (List.mem_cons_of_mem r hx))]

theorem image_calls_counts (shaders : ShaderPrograms) (window : Window) (e : Rat) (fc : Int)
    (N : Nat) (us : List Uniform) (image : Buffer) :
    (image_calls shaders window e fc N us image).countP GLCall.is_draw = 1
      ∧ (image_calls shaders window e fc N us image).count (GLCall.use_program N) = 1 := by
  have h1 : (uniform_layout shaders window e fc image.geom_iters N us N).countP
      GLCall.is_draw = 0 := by
    rw [List.countP_eq_zero]
    intro c hc hd
    have := uniform_layout_uniform _ _ _ _ _ _ _ _ c hc
    cases c <;> simp_all [GLCall.is_draw, GLCall.is_uniform]
  have h2 : (uniform_layout shaders window e fc image.geom_iters N us N).count
      (GLCall.use_program N) = 0 := by
    rw [List.count_eq_zero]
    intro hc
    have := uniform_layout_uniform _ _ _ _ _ _ _ _ _ hc
    simp [GLCall.is_uniform] at this
  constructor
  · simp only [image_calls, List.countP_append, h1]
    simp [List.countP_cons, GLCall.is_draw]
  · simp only [image_calls, List.count_append, h2]
    simp [List.count_cons]

/-! ## Sequences of calls -/

theorem apply_inv (config : ShaderConfig) (shaders : ShaderPrograms) (o : Op)
    (p : Renderer × GLContext) (n : Nat) (hc : p.1.Counts n) (hb : p.1.Bits) :
    (o.apply config shaders p).1.Counts n ∧ (o.apply config shaders p).1.Bits := by
  cases o with
  | update window now =>
    obtain ⟨h1, h2, h3, h4, _⟩ := update_members config window now p
    exact ⟨counts_of_eq _ p.1 _ hc h1 h2 h3 h4, bits_of_eq p.1 _ hb h4⟩
  | update_audio window now data =>
    obtain ⟨h1, h2, h3, h4, _⟩ := update_audio_members config window now data p
    exact ⟨counts_of_eq _ p.1 _ hc h1 h2 h3 h4, bits_of_eq p.1 _ hb h4⟩
  | render window now =>
    exact ⟨render_counts config shaders window now p n hc,
      render_bits config shaders window now p hb⟩

theorem bit_mod_two (v : Int) (hv : v = 0 ∨ v = 1) : v = (v + 0) % 2 := by
  rcases hv with h | h <;> subst h <;> decide

theorem apply_parity (config : ShaderConfig) (shaders : ShaderPrograms) (o : Op)
    (p : Renderer × GLContext) (hb : p.1.Bits)
    (hv : ∀ r ∈ config.mRender_order, r < p.1.buffers_last_drawn.length) (i : Nat) :
    (o.apply config shaders p).1.buffers_last_drawn.getD i 0
      = (p.1.buffers_last_drawn.getD i 0
          + ((if o.is_render then config.mRender_order.count i else 0 : Nat) : Int)) % 2 := by
  cases o with
  | update window now =>
    have h4 := (update_members config window now p).2.2.2.1
    simp only [Op.apply, Op.is_render, h4]
    exact bit_mod_two _ (hb i)
  | update_audio window now data =>
    have h4 := (update_audio_members config window now data p).2.2.2.1
    simp only [Op.apply, Op.is_render, h4]
    exact bit_mod_two _ (hb i)
  | render window now =>
    have h := run_passes_parity config shaders window config.mRender_order (p.1.tick now, p.2)
      (bits_of_eq p.1 _ hb rfl) hv i
    simpa [Op.apply, Op.is_render, render_fst] using h

theorem run_ops_inv (config : ShaderConfig) (shaders : ShaderPrograms) (ops : List Op)
    (p : Renderer × GLContext) (n : Nat) (hc : p.1.Counts n) (hb : p.1.Bits) :
    (run_ops config shaders ops p).1.Counts n ∧ (run_ops config shaders ops p).1.Bits := by
  induction ops generalizing p with
  | nil => exact ⟨hc, hb⟩
  | cons o os ih =>
    obtain ⟨h1, h2⟩ := apply_inv config shaders o p n hc hb
    exact ih (o.apply config shaders p) h1 h2

theorem run_ops_parity (config : ShaderConfig) (shaders : ShaderPrograms) (ops : List Op)
    (p : Renderer × GLContext) (n : Nat) (hc : p.1.Counts n) (hb : p.1.Bits)
    (hv : ∀ r ∈ config.mRender_order, r < n) (i : Nat) :
    (run_ops config shaders ops p).1.buffers_last_drawn.getD i 0
      = (p.1.buffers_last_drawn.getD i 0
          + ((ops.countP Op.is_render * config.mRender_order.count i : Nat) : Int)) % 2 := by
  induction ops generalizing p with
  | nil =>
    simp only [run_ops, List.foldl_nil, List.countP_nil, Nat.zero_mul, Nat.cast_zero]
    exact bit_mod_two _ (hb i)
  | cons o os ih =>
    obtain ⟨h1, h2⟩ := apply_inv config shaders o p n hc hb
    have hv2 : ∀ r ∈ config.mRender_order, r < p.1.buffers_last_drawn.length := by
      intro r hr
      rw [hc.2.2.2]
      exact hv r hr
    have hstep := apply_parity config shaders o p hb hv2 i
    have hrest := ih (o.apply config shaders p) h1 h2
    have hrun : run_ops config shaders (o :: os) p
        = run_ops config shaders os (o.apply config shaders p) := rfl
    rw [hrun, hrest, hstep, List.countP_cons]
    cases hor : o.is_render
    · simp
    · simp only [if_true, Nat.add_mul, Nat.one_mul]
      push_cast
      omega

theorem nodup_getD_ne (l : List Nat) (hnd : l.Nodup) (i j : Nat) (hi : i < l.length)
    (hj : j < l.length) (hij : i ≠ j) : l.getD i 0 ≠ l.getD j 0 := by
  rw [List.getD_eq_getElem l 0 hi, List.getD_eq_getElem l 0 hj]
  intro h
  exact hij ((List.Nodup.getElem_inj_iff hnd).mp h)

theorem read_write_index (s : Renderer) (r : Nat) (hb : s.Bits)
    (hr : r < s.buffers_last_drawn.length) :
    s.read_index r < 2 * s.buffers_last_drawn.length
      ∧ s.write_index r < 2 * s.buffers_last_drawn.length
      ∧ s.read_index r ≠ s.write_index r
      ∧ (s.flip r).read_index r = s.write_index r := by
  have hf := flip_getD s r r
  simp only [hr, and_self, if_true] at hf
  unfold Renderer.read_index Renderer.write_index
  rw [hf]
  have e1 : Int.tmod (0 + 1) 2 = 1 := by decide
  have e2 : Int.tmod (1 + 1) 2 = 0 := by decide
  rcases hb r with h | h
  · rw [h, e1]
    omega
  · rw [h, e2]
    omega

/-! ## Ping-pong invariants -/

/-- C1: in every pass `r` that `render()` executes from a reachable renderer whose texture
names are pairwise distinct, with a render order of valid buffer indices, at the draw call
framebuffer `r` is bound, its colour attachment is `texs[2r + (buffers_last_drawn[r]+1) % 2]`,
unit `r` holds `texs[2r + buffers_last_drawn[r]]`, and the two textures differ. -/
theorem pass_never_samples_its_target (config : ShaderConfig) (shaders : ShaderPrograms)
    (s : Renderer) (hs : Reachable config shaders s) (hv : config.valid_order)
    (hnd : s.texs.Nodup) (window : Window) (now : Int) (g : GLContext)
    (pre post : List Nat) (r : Nat) (hsplit : config.mRender_order = pre ++ r :: post) :
    let p := Renderer.run_passes config shaders window pre (s.tick now, g)
    let gd := Renderer.pass_setup config shaders window r p.1 p.2
    gd.fb = p.1.fbos.getD r 0
      ∧ gd.attach gd.fb = p.1.texs.getD (p.1.write_index r) 0
      ∧ gd.tex2D r = p.1.texs.getD (p.1.read_index r) 0
      ∧ gd.attach gd.fb ≠ gd.tex2D r := by
  intro p gd
  obtain ⟨hc, hb⟩ := reachable_inv config shaders s hs
  have hc0 : (s.tick now, g).1.Counts config.mBuffers.length :=
    counts_of_eq _ s _ hc rfl rfl rfl rfl
  have hcp : p.1.Counts config.mBuffers.length :=
    run_passes_counts config shaders window pre _ _ hc0
  have hbp : p.1.Bits := run_passes_bits config shaders window pre _ (bits_of_eq s _ hb rfl)
  have htex : p.1.texs = s.texs := (run_passes_fields config shaders window pre _).1
  have hr : r < config.mBuffers.length := by
    apply hv
    rw [hsplit]
    simp
  have hrl : r < p.1.buffers_last_drawn.length := by rw [hcp.2.2.2]; exact hr
  obtain ⟨i1, i2, i3, _⟩ := read_write_index p.1 r hbp hrl
  obtain ⟨_, s2, s3, s4⟩ := pass_setup_state config shaders window r p.1 p.2
  have hfb : gd.fb = p.1.fbos.getD r 0 := s2
  have hat : gd.attach gd.fb = p.1.texs.getD (p.1.write_index r) 0 := by
    rw [hfb]
    simpa using s4 (p.1.fbos.getD r 0)
  have htx : gd.tex2D r = p.1.texs.getD (p.1.read_index r) 0 := by
    simpa using s3 r
  refine ⟨hfb, hat, htx, ?_⟩
  rw [hat, htx]
  have hlen : p.1.texs.length = 2 * p.1.buffers_last_drawn.length := by
    rw [hcp.2.1, hcp.2.2.2]
  have hndp : p.1.texs.Nodup := by rw [htex]; exact hnd
  exact nodup_getD_ne p.1.texs hndp _ _ (by rw [hlen]; exact i2) (by rw [hlen]; exact i1)
    (fun h => i3 h.symm)

theorem scenario_valid_order : scenario_config.valid_order := by
  intro r hr
  simp [scenario_config] at hr ⊢
  omega

/-- C1 at the second pass of the first frame of the two-buffer scenario: buffer 1 samples
texture 4 and writes texture 6. -/
theorem pass_never_samples_its_target_witness :
    scenario_start.1.texs.Nodup ∧ scenario_config.mRender_order = [0] ++ 1 :: [] ∧
    (let p := Renderer.run_passes scenario_config scenario_shaders scenario_window [0]
        (scenario_start.1.tick 7, scenario_start.2)
     let gd := Renderer.pass_setup scenario_config scenario_shaders scenario_window 1 p.1 p.2
     gd.fb = p.1.fbos.getD 1 0
      ∧ gd.attach gd.fb = p.1.texs.getD (p.1.write_index 1) 0
      ∧ gd.tex2D 1 = p.1.texs.getD (p.1.read_index 1) 0
      ∧ gd.attach gd.fb ≠ gd.tex2D 1) :=
  ⟨by decide, rfl,
    pass_never_samples_its_target scenario_config scenario_shaders scenario_start.1
      (Reachable.create scenario_window 0 0 scenario_context) scenario_valid_order
      (by decide) scenario_window 7 scenario_start.2 [0] [] 1 rfl⟩

/-- C2: from a freshly constructed renderer, after any sequence of `update()`,
`update(audio_data&)` and `render()` calls followed by the first passes `pre` of a further
`render()`, that is after `K = renders * count(i, order) + count(i, pre)` completed passes
over buffer `i`, `buffers_last_drawn[i]` is `K mod 2`; it is 0 or 1; a further pass over
`i` flips it and a pass over another buffer leaves it. -/
theorem last_drawn_parity (config : ShaderConfig) (shaders : ShaderPrograms)
    (hv : config.valid_order) (window0 : Window) (now0 : Int) (junk : Rat) (g0 : GLContext)
    (ops : List Op) (window : Window) (now : Int) (pre post : List Nat)
    (hsplit : config.mRender_order = pre ++ post) (i : Nat) (hi : i < config.mBuffers.length) :
    let p := run_ops config shaders ops (Renderer.create config window0 now0 junk g0)
    let q := Renderer.run_passes config shaders window pre (p.1.tick now, p.2)
    let K := ops.countP Op.is_render * config.mRender_order.count i + pre.count i
    q.1.buffers_last_drawn.getD i 0 = (K : Int) % 2
      ∧ (q.1.buffers_last_drawn.getD i 0 = 0 ∨ q.1.buffers_last_drawn.getD i 0 = 1)
      ∧ (∀ r, r < config.mBuffers.length →
          (Renderer.render_pass config shaders window r q).1.buffers_last_drawn.getD i 0
            = if r = i then 1 - q.1.buffers_last_drawn.getD i 0
              else q.1.buffers_last_drawn.getD i 0) := by
  intro p q K
  have hc0 := create_counts config window0 now0 junk g0
  have hb0 := create_bits config window0 now0 junk g0
  obtain ⟨hcp, hbp⟩ := run_ops_inv config shaders ops _ _ hc0 hb0
  have hpar := run_ops_parity config shaders ops _ _ hc0 hb0 hv i
  have hzero : (Renderer.create config window0 now0 junk g0).1.buffers_last_drawn.getD i 0
      = 0 := by
    rw [(create_fields config window0 now0 junk g0).2.2.2.1, replicate_zero_getD]
  rw [hzero] at hpar
  have hbt : (p.1.tick now, p.2).1.Bits := bits_of_eq p.1 _ hbp rfl
  have hvp : ∀ r ∈ pre, r < (p.1.tick now, p.2).1.buffers_last_drawn.length := by
    intro r hr
    have hlen : (p.1.tick now, p.2).1.buffers_last_drawn.length = config.mBuffers.length :=
      hcp.2.2.2
    rw [hlen]
    apply hv
    rw [hsplit]
    exact List.mem_append_left post hr
  have hq := run_passes_parity config shaders window pre (p.1.tick now, p.2) hbt hvp i
  have hbq : q.1.Bits := run_passes_bits config shaders window pre _ hbt
  have hcq : q.1.Counts config.mBuffers.length :=
    run_passes_counts config shaders window pre _ _ (counts_of_eq _ p.1 _ hcp rfl rfl rfl rfl)
  have hval : q.1.buffers_last_drawn.getD i 0 = (K : Int) % 2 := by
    have e : (p.1.tick now, p.2).1.buffers_last_drawn.getD i 0
        = p.1.buffers_last_drawn.getD i 0 := rfl
    rw [hq, e, hpar]
    simp only [K]
    push_cast
    omega
  refine ⟨hval, hbq i, ?_⟩
  intro r hr
  rw [render_pass_fst, flip_getD]
  have hrl : r < q.1.buffers_last_drawn.length := by rw [hcq.2.2.2]; exact hr
  by_cases hri : r = i
  · subst hri
    simp only [hrl, and_self, if_true]
    rcases hbq r with h | h <;> rw [h] <;> decide
  · have hne : ¬ (i = r) := fun h => hri h.symm
    simp [hri, hne]

/-- C2 on the two-buffer scenario: a resize, a frame, and the first pass of the next
frame make two completed passes over buffer 0. -/
theorem last_drawn_parity_witness :
    scenario_config.mRender_order = [0] ++ [1] ∧ 0 < scenario_config.mBuffers.length ∧
    (let p := run_ops scenario_config scenario_shaders
        [Op.update resized_window 3, Op.render scenario_window 5]
        (Renderer.create scenario_config scenario_window 0 0 scenario_context)
     let q := Renderer.run_passes scenario_config scenario_shaders scenario_window [0]
        (p.1.tick 9, p.2)
     let K := [Op.update resized_window 3, Op.render scenario_window 5].countP Op.is_render
        * scenario_config.mRender_order.count 0 + [0].count 0
     q.1.buffers_last_drawn.getD 0 0 = (K : Int) % 2
      ∧ (q.1.buffers_last_drawn.getD 0 0 = 0 ∨ q.1.buffers_last_drawn.getD 0 0 = 1)
      ∧ (∀ r, r < scenario_config.mBuffers.length →
          (Renderer.render_pass scenario_config scenario_shaders scenario_window r
              q).1.buffers_last_drawn.getD 0 0
            = if r = 0 then 1 - q.1.buffers_last_drawn.getD 0 0
              else q.1.buffers_last_drawn.getD 0 0)) :=
  ⟨rfl, by decide,
    last_drawn_parity scenario_config scenario_shaders scenario_valid_order scenario_window 0 0
      scenario_context [Op.update resized_window 3, Op.render scenario_window 5]
      scenario_window 9 [0] [1] rfl 0 (by decide)⟩

/-! ## Texture-unit bindings -/

theorem update_no_resize (config : ShaderConfig) (window : Window) (now : Int)
    (p : Renderer × GLContext) (hw : window.size_changed = false) :
    Renderer.update config window now p = p := by
  simp [Renderer.update, hw]

theorem update_audio_no_resize (config : ShaderConfig) (window : Window) (now : Int)
    (data : audio_data) (p : Renderer × GLContext) (hw : window.size_changed = false) :
    (Renderer.update_audio config window now data p).1 = p.1
      ∧ (Renderer.update_audio config window now data p).2.tex2D = p.2.tex2D := by
  simp [Renderer.update_audio, update_no_resize, hw, glActiveTexture, GLContext.emit]

theorem create_bound (config : ShaderConfig) (window : Window) (now : Int) (junk : Rat)
    (g : GLContext) (i : Nat) (hi : i < config.mBuffers.length) :
    (Renderer.create config window now junk g).2.tex2D i
      = (Renderer.create config window now junk g).1.texs.getD (2 * i + 1) 0 := by
  simp only [Renderer.create, glBindFramebuffer]
  exact create_loop_bound config window _ _ rfl i hi

/-- C3, as stated, fails right after construction: with one user buffer and driver names
1, 2, 3 the pair is `texs = [1, 3]`, `buffers_last_drawn[0]` is 0, so the readable half is
texture 1, but unit 0 holds texture 3. -/
theorem bound_unit_after_create_counterexample :
    single_start.1.texs = [1, 3] ∧ single_start.1.buffers_last_drawn = [0]
      ∧ single_start.1.texs.getD (single_start.1.read_index 0) 0 = 1
      ∧ single_start.2.tex2D 0 = 3
      ∧ ¬ single_start.1.bound_ok single_start.2 0 := by
  refine ⟨by decide, by decide, by decide, by decide, ?_⟩
  unfold Renderer.bound_ok
  decide

/-- The resize loop binds without selecting a unit: in the reversed scenario unit 0 is
active after the first frame and holds texture 3, the last-drawn half of pair 0; the resize
leaves texture 6, a texture of pair 1, on unit 0. -/
theorem resize_rebinds_active_unit :
    reversed_frame.2.active = 0 ∧ reversed_frame.1.texs = [1, 3, 4, 6]
      ∧ reversed_frame.1.buffers_last_drawn = [1, 1]
      ∧ reversed_frame.2.tex2D 0 = 3
      ∧ (Renderer.update reversed_config resized_window 20 reversed_frame).2.tex2D 0 = 6
      ∧ (Renderer.update reversed_config resized_window 20 reversed_frame).1.texs.getD
          ((Renderer.update reversed_config resized_window 20 reversed_frame).1.read_index 0) 0
          = 3 := by
  refine ⟨by decide, by decide, by decide, by decide, by decide, by decide⟩

/-- C3 amended: after a completed pass over `r`, unit `r` holds
`texs[2r + buffers_last_drawn[r]]`, which is the texture that was the colour attachment of
the bound framebuffer during the pass; the pass keeps the binding of every other unit, and
so do `update()` and `update(audio_data&)` when the window size has not changed; right after
construction unit `i` holds `texs[2i + 1]` while `buffers_last_drawn[i]` is 0. -/
theorem bound_unit_after_pass (config : ShaderConfig) (shaders : ShaderPrograms)
    (window : Window) (r : Nat) (p : Renderer × GLContext) (hb : p.1.Bits)
    (hr : r < p.1.buffers_last_drawn.length) :
    let q := Renderer.render_pass config shaders window r p
    let gd := Renderer.pass_setup config shaders window r p.1 p.2
    q.1.bound_ok q.2 r
      ∧ q.2.tex2D r = gd.attach gd.fb
      ∧ (∀ i, i ≠ r → p.1.bound_ok p.2 i → q.1.bound_ok q.2 i)
      ∧ (∀ now i, window.size_changed = false → p.1.bound_ok p.2 i →
          (Renderer.update config window now p).1.bound_ok
            (Renderer.update config window now p).2 i)
      ∧ (∀ now data i, window.size_changed = false → p.1.bound_ok p.2 i →
          (Renderer.update_audio config window now data p).1.bound_ok
            (Renderer.update_audio config window now data p).2 i)
      ∧ (∀ now junk g i, i < config.mBuffers.length →
          (Renderer.create config window now junk g).2.tex2D i
            = (Renderer.create config window now junk g).1.texs.getD (2 * i + 1) 0
          ∧ (Renderer.create config window now junk g).1.buffers_last_drawn.getD i 0 = 0) := by
  intro q gd
  obtain ⟨_, hst⟩ := render_pass_state config shaders window r p
  obtain ⟨_, s2, _, s4⟩ := pass_setup_state config shaders window r p.1 p.2
  obtain ⟨_, _, _, i4⟩ := read_write_index p.1 r hb hr
  have hq1 : q.1 = p.1.flip r := rfl
  have hself : q.2.tex2D r = q.1.texs.getD (q.1.read_index r) 0 := by
    rw [hq1]
    simpa using hst r
  refine ⟨hself, ?_, ?_, ?_, ?_, ?_⟩
  · have hfb : gd.fb = p.1.fbos.getD r 0 := s2
    have hat : gd.attach gd.fb = p.1.texs.getD (p.1.write_index r) 0 := by
      rw [hfb]
      simpa using s4 (p.1.fbos.getD r 0)
    rw [hself, hat, hq1, i4, (flip_fields p.1 r).1]
  · intro i hir hok
    unfold Renderer.bound_ok at hok ⊢
    have h1 : q.2.tex2D i = p.2.tex2D i := by
      simpa [hir] using hst i
    have h2 : q.1.read_index i = p.1.read_index i := by
      unfold Renderer.read_index
      rw [hq1, flip_getD]
      simp [hir]
    rw [h1, h2, hq1, (flip_fields p.1 r).1]
    exact hok
  · intro now i hw hok
    rw [update_no_resize config window now p hw]
    exact hok
  · intro now data i hw hok
    obtain ⟨e1, e2⟩ := update_audio_no_resize config window now data p hw
    unfold Renderer.bound_ok at hok ⊢
    rw [e1, e2]
    exact hok
  · intro now junk g i hi
    refine ⟨create_bound config window now junk g i hi, ?_⟩
    rw [(create_fields config window now junk g).2.2.2.1, replicate_zero_getD]

/-- C3 amended, on the first pass of the one-buffer configuration. -/
theorem bound_unit_after_pass_witness :
    single_start.1.Bits ∧ 0 < single_start.1.buffers_last_drawn.length ∧
    (let q := Renderer.render_pass single_config scenario_shaders scenario_window 0 single_start
     let gd := Renderer.pass_setup single_config scenario_shaders scenario_window 0
        single_start.1 single_start.2
     q.1.bound_ok q.2 0
      ∧ q.2.tex2D 0 = gd.attach gd.fb
      ∧ (∀ i, i ≠ 0 → single_start.1.bound_ok single_start.2 i → q.1.bound_ok q.2 i)
      ∧ (∀ now i, scenario_window.size_changed = false →
          single_start.1.bound_ok single_start.2 i →
          (Renderer.update single_config scenario_window now single_start).1.bound_ok
            (Renderer.update single_config scenario_window now single_start).2 i)
      ∧ (∀ now data i, scenario_window.size_changed = false →
          single_start.1.bound_ok single_start.2 i →
          (Renderer.update_audio single_config scenario_window now data single_start).1.bound_ok
            (Renderer.update_audio single_config scenario_window now data single_start).2 i)
      ∧ (∀ now junk g i, i < single_config.mBuffers.length →
          (Renderer.create single_config scenario_window now junk g).2.tex2D i
            = (Renderer.create single_config scenario_window now junk g).1.texs.getD
                (2 * i + 1) 0
          ∧ (Renderer.create single_config scenario_window now junk g).1.buffers_last_drawn.getD
                i 0 = 0)) :=
  ⟨create_bits single_config scenario_window 0 0 scenario_context, by decide,
    bound_unit_after_pass single_config scenario_shaders scenario_window 0 single_start
      (create_bits single_config scenario_window 0 0 scenario_context) (by decide)⟩

/-! ## Resize -/

theorem resize_buffer_state (config : ShaderConfig) (window : Window) (s : Renderer) (k : Nat)
    (g : GLContext) :
    (Renderer.resize_buffer config window s k g).log
        = g.log ++ [ GLCall.glBindTexture (s.texs.getD (2 * k) 0),
           GLCall.glTexImage2D ((config.mBuffers.getD k default).eff_width window)
             ((config.mBuffers.getD k default).eff_height window),
           GLCall.glBindTexture (s.texs.getD (2 * k + 1) 0),
           GLCall.glTexImage2D ((config.mBuffers.getD k default).eff_width window)
             ((config.mBuffers.getD k default).eff_height window) ]
      ∧ (∀ t, (Renderer.resize_buffer config window s k g).size t
          = if t = s.texs.getD (2 * k + 1) 0 ∨ t = s.texs.getD (2 * k) 0
            then some ((config.mBuffers.getD k default).eff_width window,
              (config.mBuffers.getD k default).eff_height window)
            else g.size t) := by
  constructor
  · simp [Renderer.resize_buffer, glBindTexture, glTexImage2D]
  · intro t
    simp only [List.getD_eq_getElem?_getD]
    by_cases h1 : t = s.texs[2 * k + 1]?.getD 0
    · simp [Renderer.resize_buffer, glBindTexture, glTexImage2D, h1]
    · by_cases h2 : t = s.texs[2 * k]?.getD 0
      · simp [Renderer.resize_buffer, glBindTexture, glTexImage2D, h1, h2]
      · simp [Renderer.resize_buffer, glBindTexture, glTexImage2D, h1, h2]

theorem resize_loop_log (config : ShaderConfig) (window : Window) (s : Renderer) (n : Nat)
    (g : GLContext) :
    (forLoop n (Renderer.resize_buffer config window s) g).log
      = g.log ++ resize_calls config window s n := by
  induction n with
  | zero => simp [forLoop_zero, resize_calls]
  | succ k ih =>
    rw [forLoop_succ, (resize_buffer_state config window s k _).1, ih]
    simp [resize_calls, List.append_assoc]

theorem resize_calls_count (config : ShaderConfig) (window : Window) (s : Renderer) (n : Nat) :
    (resize_calls config window s n).countP GLCall.is_tex_image = 2 * n := by
  induction n with
  | zero => simp [resize_calls]
  | succ k ih =>
    simp only [resize_calls, List.countP_append, ih]
    simp [List.countP_cons, GLCall.is_tex_image]
    omega

/-- After `n` iterations of the resize loop both textures of each of the first `n` pairs
have the effective size of their buffer. -/
theorem resize_loop_size (config : ShaderConfig) (window : Window) (s : Renderer)
    (hnd : s.texs.Nodup) (n : Nat) (hn : 2 * n ≤ s.texs.length) (g : GLContext) (i : Nat)
    (hi : i < n) :
    (forLoop n (Renderer.resize_buffer config window s) g).size (s.texs.getD (2 * i) 0)
        = some ((config.mBuffers.getD i default).eff_width window,
            (config.mBuffers.getD i default).eff_height window)
      ∧ (forLoop n (Renderer.resize_buffer config window s) g).size (s.texs.getD (2 * i + 1) 0)
        = some ((config.mBuffers.getD i default).eff_width window,
            (config.mBuffers.getD i default).eff_height window) := by
  induction n with
  | zero => omega
  | succ k ih =>
    rw [forLoop_succ, (resize_buffer_state config window s k _).2,
      (resize_buffer_state config window s k _).2]
    by_cases hik : i = k
    · subst hik
      simp
    · have hlt : i < k := by omega
      obtain ⟨ih1, ih2⟩ := ih (by omega) hlt
      have n1 := nodup_getD_ne s.texs hnd (2 * i) (2 * k + 1) (by omega) (by omega) (by omega)
      have n2 := nodup_getD_ne s.texs hnd (2 * i) (2 * k) (by omega) (by omega) (by omega)
      have n3 := nodup_getD_ne s.texs hnd (2 * i + 1) (2 * k + 1) (by omega) (by omega)
        (by omega)
      have n4 := nodup_getD_ne s.texs hnd (2 * i + 1) (2 * k) (by omega) (by omega) (by omega)
      rw [if_neg (by rintro (h | h); exact n1 h; exact n2 h),
        if_neg (by rintro (h | h); exact n3 h; exact n4 h)]
      exact ⟨ih1, ih2⟩

/-- The resize loop as it is written: both textures of every pair are respecified, at the
new window width and height for a buffer flagged `is_window_size` and at the descriptor's
own width and height for a buffer that is not flagged; the texture and framebuffer names
are unchanged, and `2 * N` respecifications are issued in buffer order. -/
theorem resize_respecifies_every_pair (config : ShaderConfig) (window : Window) (now : Int)
    (p : Renderer × GLContext) (hw : window.size_changed = true)
    (hc : p.1.Counts config.mBuffers.length) (hnd : p.1.texs.Nodup) :
    let q := Renderer.update config window now p
    q.1.texs = p.1.texs ∧ q.1.fbos = p.1.fbos
      ∧ q.2.log = p.2.log ++ resize_calls config window p.1 config.mBuffers.length
      ∧ (GLContext.since p.2 q.2).countP GLCall.is_tex_image = 2 * config.mBuffers.length
      ∧ (∀ i, i < config.mBuffers.length →
          q.2.size (p.1.texs.getD (2 * i) 0)
              = (if (config.mBuffers.getD i default).is_window_size
                 then some (window.width, window.height)
                 else some ((config.mBuffers.getD i default).width,
                   (config.mBuffers.getD i default).height))
          ∧ q.2.size (p.1.texs.getD (2 * i + 1) 0)
              = (if (config.mBuffers.getD i default).is_window_size
                 then some (window.width, window.height)
                 else some ((config.mBuffers.getD i default).width,
                   (config.mBuffers.getD i default).height))) := by
  intro q
  have hq2 : q.2 = forLoop config.mBuffers.length (Renderer.resize_buffer config window p.1) p.2 := by
    simp [q, Renderer.update, hw]
  have hlog := resize_loop_log config window p.1 config.mBuffers.length p.2
  obtain ⟨_, m2, m3, _, _⟩ := update_members config window now p
  refine ⟨m2, m3, ?_, ?_, ?_⟩
  · rw [hq2, hlog]
  · rw [GLContext.since, hq2, hlog, List.drop_left, resize_calls_count]
  · intro i hi
    have hsz := resize_loop_size config window p.1 hnd config.mBuffers.length
      (by rw [hc.2.1]) p.2 i hi
    rw [hq2, hsz.1, hsz.2]
    unfold Buffer.eff_width Buffer.eff_height
    split <;> simp

/-- C4: the claim says that a resize issues no reallocation for a buffer that is not
flagged `is_window_size`, and the comment above the loop says the same; the code does
otherwise.  With the single fixed 64 x 32 buffer, whose textures are 1 and 3, `update()`
with `size_changed` set issues `glTexImage2D 64 32` on both textures, so their storage is
respecified and their contents are discarded. -/
theorem resize_reallocates_fixed_buffer :
    (single_config.mBuffers.getD 0 default).is_window_size = false
      ∧ resized_window.size_changed = true
      ∧ single_start.1.texs = [1, 3]
      ∧ GLContext.since single_start.2
          (Renderer.update single_config resized_window 20 single_start).2
        = [ GLCall.glBindTexture 1, GLCall.glTexImage2D 64 32,
            GLCall.glBindTexture 3, GLCall.glTexImage2D 64 32 ]
      ∧ (GLContext.since single_start.2
          (Renderer.update single_config resized_window 20 single_start).2).countP
            GLCall.is_tex_image = 2 := by
  refine ⟨by decide, by decide, by decide, by decide, by decide⟩

/-! ## Frame state -/

/-- The `float` stored for a count of 12 ns. -/
theorem elapsed_of_twelve : f32_div (int_to_f32 12) 1000000000 = 13510799 / 2 ^ 50 := by
  have a : int_to_f32 12 = 12 := by
    have h := f32_round_eval 12 3 12582912 (by norm_num) (by norm_num [abs_of_pos])
      (by norm_num [abs_of_pos]) (by norm_num) (by norm_num) (by norm_num)
    simp only [int_to_f32]
    rw [show ((12 : Int) : Rat) = 12 by norm_num, h]
    norm_num
  rw [a, f32_div]
  have h := f32_round_eval (12 / 1000000000) (-27) 13510799 (by norm_num)
    (by norm_num [abs_of_pos]) (by norm_num [abs_of_pos]) (by norm_num) (by norm_num)
    (by norm_num)
  rw [h]
  norm_num

/-- The `float` stored for a count of 7 ns. -/
theorem elapsed_of_seven : f32_div (int_to_f32 7) 1000000000 = 15762599 / 2 ^ 51 := by
  have a : int_to_f32 7 = 7 := by
    have h := f32_round_eval 7 2 14680064 (by norm_num) (by norm_num [abs_of_pos])
      (by norm_num [abs_of_pos]) (by norm_num) (by norm_num) (by norm_num)
    simp only [int_to_f32]
    rw [show ((7 : Int) : Rat) = 7 by norm_num, h]
    norm_num
  rw [a, f32_div]
  have h := f32_round_eval (7 / 1000000000) (-28) 15762599 (by norm_num)
    (by norm_num [abs_of_pos]) (by norm_num [abs_of_pos]) (by norm_num) (by norm_num)
    (by norm_num)
  rw [h]
  norm_num

theorem scenario_frame_elapsed : scenario_frame.1.elapsed_time = 13510799 / 2 ^ 50 := by
  have h := (run_passes_fields scenario_config scenario_shaders scenario_window
    scenario_config.mRender_order (scenario_start.1.tick 12, scenario_start.2)).2.2.2.2.2.1
  have hs : scenario_start.1.start_time = 0 :=
    (create_fields scenario_config scenario_window 0 0 scenario_context).2.2.2.2.2
  have e : scenario_frame.1.elapsed_time
      = (Renderer.run_passes scenario_config scenario_shaders scenario_window
          scenario_config.mRender_order
          (scenario_start.1.tick 12, scenario_start.2)).1.elapsed_time := rfl
  have t : (scenario_start.1.tick 12, scenario_start.2).1.elapsed_time
      = f32_div (int_to_f32 (12 - scenario_start.1.start_time)) 1000000000 := rfl
  rw [e, h, t, hs, show (12 - 0 : Int) = 12 by norm_num]
  exact elapsed_of_twelve

/-- C5, as stated, fails for the elapsed time: a resize at clock reading 20 after a frame
rendered at reading 12 leaves the stored elapsed time at the `float` for 12 ns,
`13510799 / 2 ^ 50`, and the next `render()`, at reading 27, stores the `float` for 7 ns,
`15762599 / 2 ^ 51`; only the frame counter is 0. -/
theorem resize_elapsed_time_counterexample :
    resized_window.size_changed = true
      ∧ (Renderer.update scenario_config resized_window 20 scenario_frame).1.frame_counter = 0
      ∧ (Renderer.update scenario_config resized_window 20 scenario_frame).1.elapsed_time
          = 13510799 / 2 ^ 50
      ∧ (Renderer.update scenario_config resized_window 20 scenario_frame).1.elapsed_time ≠ 0
      ∧ ((Renderer.update scenario_config resized_window 20 scenario_frame).1.tick 27).elapsed_time
          = 15762599 / 2 ^ 51
      ∧ ((Renderer.update scenario_config resized_window 20
            scenario_frame).1.tick 27).elapsed_time ≠ 0 := by
  have hu := update_fst scenario_config resized_window 20 scenario_frame
  have hw : resized_window.size_changed = true := rfl
  rw [hw, if_pos rfl] at hu
  have he : (Renderer.update scenario_config resized_window 20 scenario_frame).1.elapsed_time
      = 13510799 / 2 ^ 50 := by
    rw [hu]
    exact scenario_frame_elapsed
  have ht : ((Renderer.update scenario_config resized_window 20
      scenario_frame).1.tick 27).elapsed_time = 15762599 / 2 ^ 51 := by
    rw [hu]
    show f32_div (int_to_f32 (27 - 20)) 1000000000 = _
    rw [show (27 - 20 : Int) = 7 by norm_num]
    exact elapsed_of_seven
  refine ⟨rfl, by rw [hu], he, ?_, ht, ?_⟩
  · rw [he]; norm_num
  · rw [ht]; norm_num

/-- C5 amended: a resize sets the frame counter to 0 and the reference instant `start_time`
to the clock reading of the resize, and leaves the stored elapsed time as it was; in the
next `render()`, before and after each of its passes, the frame counter is 0 and the elapsed
time is the `float` quotient of the nanosecond count since the resize by `1e9f`, which,
the clock being monotonic, is 0 exactly when the two clock readings are equal.  The same
holds for `update(audio_data&)`. -/
theorem resize_resets_clock (config : ShaderConfig) (shaders : ShaderPrograms)
    (window : Window) (now : Int) (p : Renderer × GLContext)
    (hw : window.size_changed = true) :
    let q := Renderer.update config window now p
    q.1.frame_counter = 0 ∧ q.1.start_time = now ∧ q.1.elapsed_time = p.1.elapsed_time
      ∧ (∀ data, (Renderer.update_audio config window now data p).1 = q.1)
      ∧ (∀ window2 now2 pre,
          (Renderer.run_passes config shaders window2 pre (q.1.tick now2, q.2)).1.frame_counter
              = 0
          ∧ (Renderer.run_passes config shaders window2 pre (q.1.tick now2, q.2)).1.elapsed_time
              = f32_div (int_to_f32 (now2 - now)) 1000000000
          ∧ (now ≤ now2 →
              ((Renderer.run_passes config shaders window2 pre
                (q.1.tick now2, q.2)).1.elapsed_time = 0 ↔ now2 = now))) := by
  intro q
  have hu : q.1 = { p.1 with frame_counter := 0, start_time := now } := by
    have h := update_fst config window now p
    rw [hw, if_pos rfl] at h
    exact h
  refine ⟨by rw [hu], by rw [hu], by rw [hu], ?_, ?_⟩
  · intro data
    rw [update_audio_fst, hw, if_pos rfl, hu]
  · intro window2 now2 pre
    obtain ⟨_, _, _, f4, _, f6, _⟩ :=
      run_passes_fields config shaders window2 pre (q.1.tick now2, q.2)
    have e1 : (q.1.tick now2, q.2).1.frame_counter = 0 := by
      show q.1.frame_counter = 0
      rw [hu]
    have e2 : (q.1.tick now2, q.2).1.elapsed_time
        = f32_div (int_to_f32 (now2 - now)) 1000000000 := by
      show f32_div (int_to_f32 (now2 - q.1.start_time)) 1000000000 = _
      rw [hu]
    rw [f4, f6, e1, e2]
    refine ⟨rfl, rfl, ?_⟩
    intro hle
    constructor
    · intro h
      by_contra hne
      exact elapsed_of_pos (now2 - now) (by omega) h
    · intro h
      rw [h, sub_self]
      exact elapsed_of_zero

/-- C5 amended, on a resize of the two-buffer scenario after its first frame. -/
theorem resize_resets_clock_witness :
    resized_window.size_changed = true ∧
    (let q := Renderer.update scenario_config resized_window 20 scenario_frame
     q.1.frame_counter = 0 ∧ q.1.start_time = 20
      ∧ q.1.elapsed_time = scenario_frame.1.elapsed_time
      ∧ (∀ data, (Renderer.update_audio scenario_config resized_window 20 data
            scenario_frame).1 = q.1)
      ∧ (∀ window2 now2 pre,
          (Renderer.run_passes scenario_config scenario_shaders window2 pre
              (q.1.tick now2, q.2)).1.frame_counter = 0
          ∧ (Renderer.run_passes scenario_config scenario_shaders window2 pre
              (q.1.tick now2, q.2)).1.elapsed_time
              = f32_div (int_to_f32 (now2 - 20)) 1000000000
          ∧ (20 ≤ now2 →
              ((Renderer.run_passes scenario_config scenario_shaders window2 pre
                (q.1.tick now2, q.2)).1.elapsed_time = 0 ↔ now2 = 20)))) :=
  ⟨rfl, resize_resets_clock scenario_config scenario_shaders resized_window 20 scenario_frame rfl⟩

/-! ## One frame -/

/-- C6: with a render order of valid buffer indices, one `render()` call increases
`frame_counter` by exactly 1; the calls it issues are those of the `len(render_order)` user
passes, with one draw each, followed by the calls of one final pass, which uses program
`num_user_buffers`, uploads the uniforms of the image descriptor, binds framebuffer 0, sets
the viewport to the window width and height, clears and draws; program `num_user_buffers`
is used exactly once in the frame and the default framebuffer is bound at the end. -/
theorem render_one_frame (config : ShaderConfig) (shaders : ShaderPrograms) (window : Window)
    (now : Int) (p : Renderer × GLContext) (hv : config.valid_order)
    (hn : p.1.num_user_buffers = config.mBuffers.length)
    (hmax : p.1.frame_counter < 2147483647) :
    let out := Renderer.render config shaders window now p
    out.1.frame_counter = p.1.frame_counter + 1
      ∧ out.1.frame_counter ≤ 2147483647
      ∧ out.2.log = p.2.log
          ++ passes_calls config shaders window config.mRender_order (p.1.tick now)
          ++ image_calls shaders window (p.1.tick now).elapsed_time p.1.frame_counter
              p.1.num_user_buffers config.mUniforms config.mImage
      ∧ (passes_calls config shaders window config.mRender_order (p.1.tick now)).countP
          GLCall.is_draw = config.mRender_order.length
      ∧ (GLContext.since p.2 out.2).countP GLCall.is_draw = config.mRender_order.length + 1
      ∧ (GLContext.since p.2 out.2).count (GLCall.use_program p.1.num_user_buffers) = 1
      ∧ out.2.fb = 0 := by
  intro out
  obtain ⟨_, _, f3, f4, _, f6, _⟩ :=
    run_passes_fields config shaders window config.mRender_order (p.1.tick now, p.2)
  have hfc : out.1.frame_counter = p.1.frame_counter + 1 := by
    show (Renderer.run_passes config shaders window config.mRender_order
      (p.1.tick now, p.2)).1.frame_counter + 1 = _
    rw [f4]
    rfl
  have hmidn : (Renderer.run_passes config shaders window config.mRender_order
      (p.1.tick now, p.2)).1.num_user_buffers = config.mBuffers.length := by
    rw [f3]; exact hn
  have hlog : out.2.log = p.2.log
      ++ passes_calls config shaders window config.mRender_order (p.1.tick now)
      ++ image_calls shaders window (p.1.tick now).elapsed_time p.1.frame_counter
          p.1.num_user_buffers config.mUniforms config.mImage := by
    show (Renderer.render_image config shaders window _ _).log = _
    rw [render_image_log config shaders window _ _ hmidn, run_passes_log, f3, f4, f6]
    rfl
  have hd := passes_calls_draws config shaders window config.mRender_order (p.1.tick now)
  have hpr := passes_calls_programs config shaders window config.mRender_order (p.1.tick now)
    p.1.num_user_buffers (by rw [hn]; exact hv)
  obtain ⟨c1, c2⟩ := image_calls_counts shaders window (p.1.tick now).elapsed_time
    p.1.frame_counter p.1.num_user_buffers config.mUniforms config.mImage
  have hsince : GLContext.since p.2 out.2
      = passes_calls config shaders window config.mRender_order (p.1.tick now)
        ++ image_calls shaders window (p.1.tick now).elapsed_time p.1.frame_counter
            p.1.num_user_buffers config.mUniforms config.mImage := by
    rw [GLContext.since, hlog, List.append_assoc, List.drop_left]
  refine ⟨hfc, by rw [hfc]; omega, hlog, hd, ?_, ?_, ?_⟩
  · rw [hsince, List.countP_append, hd, c1]
  · rw [hsince, List.count_append, hpr, c2]
  · simp [out, Renderer.render, Renderer.render_image, upload_uniforms_eq, GLContext.emit,
      GLContext.emits, glBindFramebuffer]

/-- C6 on the scenario of two buffers, order `[0, 1]`, window 800 x 600: the frame counter
goes from 0 to 1, both last-drawn indices go from 0 to 1, and the final pass sets the
viewport to 800 x 600. -/
theorem render_one_frame_witness :
    scenario_config.valid_order
      ∧ scenario_start.1.num_user_buffers = scenario_config.mBuffers.length
      ∧ scenario_start.1.frame_counter < 2147483647
      ∧ scenario_start.1.frame_counter = 0
      ∧ scenario_start.1.buffers_last_drawn = [0, 0]
      ∧ scenario_frame.1.frame_counter = 1
      ∧ scenario_frame.1.buffers_last_drawn = [1, 1]
      ∧ GLCall.glViewport 0 0 800 600 ∈ image_calls scenario_shaders scenario_window
          (scenario_start.1.tick 12).elapsed_time scenario_start.1.frame_counter
          scenario_start.1.num_user_buffers scenario_config.mUniforms scenario_config.mImage ∧
    (let out := Renderer.render scenario_config scenario_shaders scenario_window 12
        scenario_start
     out.1.frame_counter = scenario_start.1.frame_counter + 1
      ∧ out.1.frame_counter ≤ 2147483647
      ∧ out.2.log = scenario_start.2.log
          ++ passes_calls scenario_config scenario_shaders scenario_window
              scenario_config.mRender_order (scenario_start.1.tick 12)
          ++ image_calls scenario_shaders scenario_window
              (scenario_start.1.tick 12).elapsed_time scenario_start.1.frame_counter
              scenario_start.1.num_user_buffers scenario_config.mUniforms
              scenario_config.mImage
      ∧ (passes_calls scenario_config scenario_shaders scenario_window
          scenario_config.mRender_order (scenario_start.1.tick 12)).countP
          GLCall.is_draw = scenario_config.mRender_order.length
      ∧ (GLContext.since scenario_start.2 out.2).countP GLCall.is_draw
          = scenario_config.mRender_order.length + 1
      ∧ (GLContext.since scenario_start.2 out.2).count
          (GLCall.use_program scenario_start.1.num_user_buffers) = 1
      ∧ out.2.fb = 0) :=
  ⟨scenario_valid_order, by decide, by decide, by decide, by decide, by decide, by decide,
    by simp [image_calls, scenario_window],
    render_one_frame scenario_config scenario_shaders scenario_window 12 scenario_start
      scenario_valid_order (by decide) (by decide)⟩

/-! ## Uniform upload -/

theorem user_uniform_call_malformed (shaders : ShaderPrograms) (p slot : Nat) (uv : List Rat)
    (hbad : ¬ (1 ≤ uv.length ∧ uv.length ≤ 4)) : user_uniform_call shaders p slot uv = [] := by
  match uv with
  | [] => rfl
  | [a] => simp at hbad
  | [a, b] => simp at hbad
  | [a, b, c] => simp at hbad
  | [a, b, c, d] => simp at hbad
  | a :: b :: c :: d :: e :: t => rfl

/-- C8: for every pass index `p` and descriptor, on a renderer whose buffer count is the
number `N` of configured buffers, `upload_uniforms` appends exactly the fixed layout to the
call log and changes nothing else: mouse position, mouse-button-down, window size, elapsed
time, frame counter, `geom_iters` as a float, the audio samplers 0..3 on slots 6..9, the
integer `i` on slot `num_builtin_uniforms + i` for each user buffer, then user uniform `j` on
slot `num_builtin_uniforms + N + j` with the call of its value count, every location being
looked up for program `p`. -/
theorem upload_uniforms_layout (config : ShaderConfig) (shaders : ShaderPrograms)
    (window : Window) (s : Renderer) (buff : Buffer) (p : Nat) (g : GLContext) (N : Nat)
    (hs : s.num_user_buffers = N) (hc : config.mBuffers.length = N) :
    Renderer.upload_uniforms config shaders window s buff p g
      = g.emits (uniform_layout shaders window s.elapsed_time s.frame_counter buff.geom_iters
          N config.mUniforms p) := by
  rw [upload_uniforms_eq, hs, hc]
  simp [uniform_layout, user_uniform_calls, List.append_assoc]

/-- C8 on the composite pass of the two-buffer scenario: the thirteen uploads for program 2,
locations 200 to 212. -/
theorem upload_uniforms_layout_witness :
    scenario_start.1.num_user_buffers = 2 ∧ scenario_config.mBuffers.length = 2
      ∧ uniform_layout scenario_shaders scenario_window 0 0 100 2 scenario_config.mUniforms 2
        = [ GLCall.glUniform2f 200 0 0, GLCall.glUniform1i 201 0,
            GLCall.glUniform2f 202 800 600, GLCall.glUniform1f 203 0,
            GLCall.glUniform1i 204 0, GLCall.glUniform1f 205 100,
            GLCall.glUniform1i 206 0, GLCall.glUniform1i 207 1, GLCall.glUniform1i 208 2,
            GLCall.glUniform1i 209 3, GLCall.glUniform1i 210 0, GLCall.glUniform1i 211 1,
            GLCall.glUniform2f 212 (1 / 2) (1 / 2) ]
      ∧ Renderer.upload_uniforms scenario_config scenario_shaders scenario_window
          scenario_start.1 scenario_config.mImage 2 scenario_start.2
        = scenario_start.2.emits (uniform_layout scenario_shaders scenario_window
            scenario_start.1.elapsed_time scenario_start.1.frame_counter
            scenario_config.mImage.geom_iters 2 scenario_config.mUniforms 2) :=
  ⟨by decide, by decide,
    by
      simp [uniform_layout, user_uniform_calls, user_uniform_call, scenario_config,
        scenario_shaders, scenario_window, List.range_succ],
    upload_uniforms_layout scenario_config scenario_shaders scenario_window scenario_start.1
      scenario_config.mImage 2 scenario_start.2 2 (by decide) (by decide)⟩

theorem set_getD_self (us : List Uniform) (k : Nat) : us.set k (us.getD k default) = us := by
  induction us generalizing k with
  | nil => rfl
  | cons v vs ih =>
    cases k with
    | zero => simp
    | succ i =>
      have h := ih i
      simp only [List.getD_eq_getElem?_getD] at h
      simp [h]

theorem user_uniform_calls_concat (shaders : ShaderPrograms) (p : Nat) (xs ys : List Uniform)
    (slot : Nat) :
    user_uniform_calls shaders p slot (xs ++ ys)
      = user_uniform_calls shaders p slot xs
        ++ user_uniform_calls shaders p (slot + xs.length) ys := by
  induction xs generalizing slot with
  | nil => simp [user_uniform_calls]
  | cons v vs ih =>
    simp [user_uniform_calls, ih, List.append_assoc, Nat.add_assoc, Nat.add_comm 1]

/-- The user uploads split around group `k`: the groups before it, group `k` on slot
`slot + k`, and the groups after it from slot `slot + k + 1` on. -/
theorem user_uniform_calls_split (shaders : ShaderPrograms) (p : Nat) (us : List Uniform)
    (slot k : Nat) (u : Uniform) (hk : k < us.length) :
    user_uniform_calls shaders p slot (us.set k u)
      = user_uniform_calls shaders p slot (us.take k)
        ++ user_uniform_call shaders p (slot + k) u.values
        ++ user_uniform_calls shaders p (slot + k + 1) (us.drop (k + 1)) := by
  rw [List.set_eq_take_append_cons_drop, if_pos hk, user_uniform_calls_concat]
  have hlen : (us.take k).length = k := by
    rw [List.length_take]
    omega
  simp [user_uniform_calls, hlen, List.append_assoc, Nat.add_assoc]

theorem user_uniform_calls_mem (shaders : ShaderPrograms) (p : Nat) (us : List Uniform)
    (slot j : Nat) (hj : j < us.length) (c : GLCall)
    (hc : c ∈ user_uniform_call shaders p (slot + j) (us.getD j default).values) :
    c ∈ user_uniform_calls shaders p slot us := by
  induction us generalizing slot j with
  | nil => simp at hj
  | cons v vs ih =>
    cases j with
    | zero =>
      simp only [user_uniform_calls, List.mem_append]
      left
      simpa using hc
    | succ i =>
      simp only [user_uniform_calls, List.mem_append]
      right
      apply ih (slot + 1) i (by simpa using hj)
      have e : slot + 1 + i = slot + (i + 1) := by omega
      rw [e]
      simpa using hc

/-- C7: a group whose value count is outside 1..4 makes the loop body issue no call and
leave the context as it is.  With group `k` malformed, `upload_uniforms` appends the builtin
and sampler block, the uploads of the groups before `k`, and the uploads of the groups after
`k`, nothing else; whatever group `k` is replaced by, the uploads of the groups before and
after it are these same calls, group `j` keeping slot `num_builtin_uniforms + N + j`; and
every group of one to four values has its call of that arity, on its slot and with its
values, in the output. -/
theorem malformed_uniform_isolated (config : ShaderConfig) (shaders : ShaderPrograms)
    (window : Window) (s : Renderer) (buff : Buffer) (p : Nat) (g : GLContext) (k : Nat)
    (hk : k < config.mUniforms.length)
    (hbad : ¬ (1 ≤ (config.mUniforms.getD k default).values.length
      ∧ (config.mUniforms.getD k default).values.length ≤ 4)) :
    (∀ (uv : List Rat) (off i : Nat) (g1 : GLContext), ¬ (1 ≤ uv.length ∧ uv.length ≤ 4) →
        upload_user_uniform shaders p off i uv g1 = g1)
      ∧ Renderer.upload_uniforms config shaders window s buff p g
        = g.emits (uniform_layout shaders window s.elapsed_time s.frame_counter
              buff.geom_iters s.num_user_buffers [] p
            ++ user_uniform_calls shaders p
                (shaders.num_builtin_uniforms + config.mBuffers.length)
                (config.mUniforms.take k)
            ++ user_uniform_calls shaders p
                (shaders.num_builtin_uniforms + config.mBuffers.length + k + 1)
                (config.mUniforms.drop (k + 1)))
      ∧ (∀ u : Uniform,
          Renderer.upload_uniforms { config with mUniforms := config.mUniforms.set k u } shaders
              window s buff p g
            = g.emits (uniform_layout shaders window s.elapsed_time s.frame_counter
                  buff.geom_iters s.num_user_buffers [] p
                ++ user_uniform_calls shaders p
                    (shaders.num_builtin_uniforms + config.mBuffers.length)
                    (config.mUniforms.take k)
                ++ user_uniform_call shaders p
                    (shaders.num_builtin_uniforms + config.mBuffers.length + k) u.values
                ++ user_uniform_calls shaders p
                    (shaders.num_builtin_uniforms + config.mBuffers.length + k + 1)
                    (config.mUniforms.drop (k + 1))))
      ∧ (∀ j, j < config.mUniforms.length →
          (∀ a, (config.mUniforms.getD j default).values = [a] →
            GLCall.glUniform1f (shaders.get_uniform_loc p
                (shaders.num_builtin_uniforms + config.mBuffers.length + j)) a
              ∈ GLContext.since g (Renderer.upload_uniforms config shaders window s buff p g))
          ∧ (∀ a b, (config.mUniforms.getD j default).values = [a, b] →
            GLCall.glUniform2f (shaders.get_uniform_loc p
                (shaders.num_builtin_uniforms + config.mBuffers.length + j)) a b
              ∈ GLContext.since g (Renderer.upload_uniforms config shaders window s buff p g))
          ∧ (∀ a b c, (config.mUniforms.getD j default).values = [a, b, c] →
            GLCall.glUniform3f (shaders.get_uniform_loc p
                (shaders.num_builtin_uniforms + config.mBuffers.length + j)) a b c
              ∈ GLContext.since g (Renderer.upload_uniforms config shaders window s buff p g))
          ∧ (∀ a b c d, (config.mUniforms.getD j default).values = [a, b, c, d] →
            GLCall.glUniform4f (shaders.get_uniform_loc p
                (shaders.num_builtin_uniforms + config.mBuffers.length + j)) a b c d
              ∈ GLContext.since g
                  (Renderer.upload_uniforms config shaders window s buff p g))) := by
  have hzero : ∀ (uv : List Rat) (off i : Nat) (g1 : GLContext),
      ¬ (1 ≤ uv.length ∧ uv.length ≤ 4) → upload_user_uniform shaders p off i uv g1 = g1 := by
    intro uv off i g1 h
    rw [upload_user_uniform_eq, user_uniform_call_malformed shaders p _ uv h, emits_nil]
  have hsplit : ∀ u : Uniform,
      Renderer.upload_uniforms { config with mUniforms := config.mUniforms.set k u } shaders
          window s buff p g
        = g.emits (uniform_layout shaders window s.elapsed_time s.frame_counter
              buff.geom_iters s.num_user_buffers [] p
            ++ user_uniform_calls shaders p
                (shaders.num_builtin_uniforms + config.mBuffers.length)
                (config.mUniforms.take k)
            ++ user_uniform_call shaders p
                (shaders.num_builtin_uniforms + config.mBuffers.length + k) u.values
            ++ user_uniform_calls shaders p
                (shaders.num_builtin_uniforms + config.mBuffers.length + k + 1)
                (config.mUniforms.drop (k + 1))) := by
    intro u
    rw [upload_uniforms_eq]
    simp only [user_uniform_calls_split shaders p config.mUniforms _ k u hk, List.append_assoc]
  have hmem : ∀ j, j < config.mUniforms.length → ∀ c,
      c ∈ user_uniform_call shaders p
        (shaders.num_builtin_uniforms + config.mBuffers.length + j)
        (config.mUniforms.getD j default).values →
      c ∈ GLContext.since g (Renderer.upload_uniforms config shaders window s buff p g) := by
    intro j hj c hc
    rw [upload_uniforms_eq]
    simp only [GLContext.since, GLContext.emits, List.drop_left, List.mem_append]
    right
    exact user_uniform_calls_mem shaders p config.mUniforms _ j hj c hc
  refine ⟨hzero, ?_, hsplit, ?_⟩
  · have h := hsplit (config.mUniforms.getD k default)
    have hset : config.mUniforms.set k (config.mUniforms.getD k default) = config.mUniforms :=
      set_getD_self config.mUniforms k
    rw [hset, user_uniform_call_malformed shaders p _ _ hbad, List.append_nil] at h
    exact h
  · intro j hj
    refine ⟨?_, ?_, ?_, ?_⟩
    · intro a ha
      exact hmem j hj _ (by rw [ha]; simp [user_uniform_call])
    · intro a b ha
      exact hmem j hj _ (by rw [ha]; simp [user_uniform_call])
    · intro a b c ha
      exact hmem j hj _ (by rw [ha]; simp [user_uniform_call])
    · intro a b c d ha
      exact hmem j hj _ (by rw [ha]; simp [user_uniform_call])

/-- C7 on three groups of sizes 2, 5 and 1 with one user buffer: the calls issued are the
ten builtin uploads, one sampler, the pair on slot 11 and the single value on slot 13; the
group of five on slot 12 uploads nothing and does not stop the groups after it. -/
theorem malformed_uniform_isolated_witness :
    1 < mixed_config.mUniforms.length
      ∧ ¬ (1 ≤ (mixed_config.mUniforms.getD 1 default).values.length
        ∧ (mixed_config.mUniforms.getD 1 default).values.length ≤ 4)
      ∧ GLContext.since mixed_start.2
          (Renderer.upload_uniforms mixed_config scenario_shaders scenario_window mixed_start.1
            fixed_buffer 0 mixed_start.2)
        = [ GLCall.glUniform2f 0 0 0, GLCall.glUniform1i 1 0, GLCall.glUniform2f 2 800 600,
            GLCall.glUniform1f 3 0, GLCall.glUniform1i 4 0, GLCall.glUniform1f 5 100,
            GLCall.glUniform1i 6 0, GLCall.glUniform1i 7 1, GLCall.glUniform1i 8 2,
            GLCall.glUniform1i 9 3, GLCall.glUniform1i 10 0,
            GLCall.glUniform2f 11 1 2, GLCall.glUniform1f 13 7 ]
      ∧ GLCall.glUniform1f (scenario_shaders.get_uniform_loc 0
            (scenario_shaders.num_builtin_uniforms + mixed_config.mBuffers.length + 2)) 7
          ∈ GLContext.since mixed_start.2
              (Renderer.upload_uniforms mixed_config scenario_shaders scenario_window
                mixed_start.1 fixed_buffer 0 mixed_start.2) :=
  ⟨by decide, by decide, by decide,
    ((malformed_uniform_isolated mixed_config scenario_shaders scenario_window mixed_start.1
      fixed_buffer 0 mixed_start.2 1 (by decide) (by decide)).2.2.2 2 (by decide)).1 7 rfl⟩

/-! ## Resource lists -/

/-- C9: after construction for a configuration with `N` user buffers the renderer holds
`2N` textures, `N` framebuffers and `N` last-drawn indices, and its buffer count is `N`;
`update()`, `update(audio_data&)` and `render()` keep these four sizes, and with a render
order of valid indices every pass of `render()` indexes the three lists within their
bounds; a move-assignment gives the recipient the lists and the count of the donor, so the
relation carries over from the donor, and leaves the donor with the sizes for zero
buffers. -/
theorem resource_counts (config : ShaderConfig) (shaders : ShaderPrograms)
    (hv : config.valid_order) (window : Window) (now : Int) (junk : Rat) (g : GLContext) :
    (Renderer.create config window now junk g).1.num_user_buffers = config.mBuffers.length
      ∧ (Renderer.create config window now junk g).1.texs.length = 2 * config.mBuffers.length
      ∧ (Renderer.create config window now junk g).1.fbos.length = config.mBuffers.length
      ∧ (Renderer.create config window now junk g).1.buffers_last_drawn.length
          = config.mBuffers.length
      ∧ (∀ (p : Renderer × GLContext) (window1 : Window) (now1 : Int) (data : audio_data),
          p.1.Counts config.mBuffers.length →
          (Renderer.update config window1 now1 p).1.Counts config.mBuffers.length
          ∧ (Renderer.update_audio config window1 now1 data p).1.Counts config.mBuffers.length
          ∧ (Renderer.render config shaders window1 now1 p).1.Counts config.mBuffers.length
          ∧ (∀ r ∈ config.mRender_order, r < p.1.fbos.length ∧ 2 * r + 1 < p.1.texs.length
              ∧ r < p.1.buffers_last_drawn.length))
      ∧ (∀ (n : Nat) (a o : Renderer) (g1 : GLContext), o.Counts n →
          (Renderer.move_assign a o g1).1.1.Counts n
          ∧ (Renderer.move_assign a o g1).1.2.Counts 0) := by
  have hc := create_counts config window now junk g
  refine ⟨hc.1, hc.2.1, hc.2.2.1, hc.2.2.2, ?_, ?_⟩
  · intro p window1 now1 data hp
    obtain ⟨u1, u2, u3, u4, _⟩ := update_members config window1 now1 p
    obtain ⟨a1, a2, a3, a4, _⟩ := update_audio_members config window1 now1 data p
    refine ⟨counts_of_eq _ p.1 _ hp u1 u2 u3 u4, counts_of_eq _ p.1 _ hp a1 a2 a3 a4,
      render_counts config shaders window1 now1 p _ hp, ?_⟩
    intro r hr
    have hlt := hv r hr
    obtain ⟨_, h2, h3, h4⟩ := hp
    rw [h2, h3, h4]
    omega
  · intro n a o g1 ho
    refine ⟨counts_of_eq n o _ ho rfl rfl rfl rfl, ?_⟩
    simp [Renderer.move_assign, Renderer.Counts]

/-- C9 on the two-buffer scenario: four textures, two framebuffers, two indices. -/
theorem resource_counts_witness :
    scenario_config.valid_order ∧ scenario_start.1.texs = [1, 3, 4, 6]
      ∧ scenario_start.1.fbos = [1, 2] ∧ scenario_start.1.Counts 2 ∧
    ((Renderer.render scenario_config scenario_shaders scenario_window 12
          scenario_start).1.Counts scenario_config.mBuffers.length
      ∧ (Renderer.move_assign recipient scenario_start.1 scenario_start.2).1.1.Counts 2
      ∧ (Renderer.move_assign recipient scenario_start.1 scenario_start.2).1.2.Counts 0) :=
  ⟨scenario_valid_order, by decide, by decide,
    create_counts scenario_config scenario_window 0 0 scenario_context,
    ((resource_counts scenario_config scenario_shaders scenario_valid_order scenario_window 0 0
      scenario_context).2.2.2.2.1 scenario_start scenario_window 12
        { audio_r := [], audio_l := [], freq_r := [], freq_l := [] }
        (create_counts scenario_config scenario_window 0 0 scenario_context)).2.2.1,
    (resource_counts scenario_config scenario_shaders scenario_valid_order scenario_window 0 0
      scenario_context).2.2.2.2.2 2 recipient scenario_start.1 scenario_start.2
        (create_counts scenario_config scenario_window 0 0 scenario_context)⟩

/-- C10: after `a = move(o)` the donor has empty framebuffer and texture lists and a zero
buffer count, and `a` holds the donor's former framebuffers, textures, last-drawn indices,
buffer count and frame counter; destroying the donor, or any renderer whose buffer count is
zero, hands empty name lists to both delete calls and leaves every binding and every
texture storage of the context as it was. -/
theorem move_assign_leaves_donor_empty (a o : Renderer) (g : GLContext) :
    (Renderer.move_assign a o g).1.2.fbos = []
      ∧ (Renderer.move_assign a o g).1.2.texs = []
      ∧ (Renderer.move_assign a o g).1.2.num_user_buffers = 0
      ∧ (Renderer.move_assign a o g).1.1.fbos = o.fbos
      ∧ (Renderer.move_assign a o g).1.1.texs = o.texs
      ∧ (Renderer.move_assign a o g).1.1.buffers_last_drawn = o.buffers_last_drawn
      ∧ (Renderer.move_assign a o g).1.1.num_user_buffers = o.num_user_buffers
      ∧ (Renderer.move_assign a o g).1.1.frame_counter = o.frame_counter
      ∧ (∀ g1 : GLContext,
          Renderer.destroy (Renderer.move_assign a o g).1.2 g1
            = g1.emits [GLCall.glDeleteFramebuffers [], GLCall.glDeleteTextures []])
      ∧ (∀ (e : Renderer) (g1 : GLContext), e.num_user_buffers = 0 →
          Renderer.destroy e g1
            = g1.emits [GLCall.glDeleteFramebuffers [], GLCall.glDeleteTextures []]) := by
  have hempty : ∀ (e : Renderer) (g1 : GLContext), e.num_user_buffers = 0 →
      Renderer.destroy e g1
        = g1.emits [GLCall.glDeleteFramebuffers [], GLCall.glDeleteTextures []] := by
    intro e g1 he
    simp [Renderer.destroy, he, glDeleteFramebuffers, glDeleteTextures, GLContext.emits]
  refine ⟨rfl, rfl, rfl, rfl, rfl, rfl, rfl, rfl, ?_, hempty⟩
  intro g1
  exact hempty _ g1 rfl

/-- C10 on a move from the two-buffer scenario after its first frame: the recipient gets
textures 1, 3, 4, 6, the donor is empty, and destroying the empty donor deletes nothing. -/
theorem move_assign_leaves_donor_empty_witness :
    (Renderer.move_assign recipient scenario_frame.1 scenario_frame.2).1.1.texs = [1, 3, 4, 6]
      ∧ (Renderer.move_assign recipient scenario_frame.1 scenario_frame.2).1.2.num_user_buffers
          = 0
      ∧ Renderer.destroy (Renderer.move_assign recipient scenario_frame.1 scenario_frame.2).1.2
          scenario_context
        = scenario_context.emits [GLCall.glDeleteFramebuffers [], GLCall.glDeleteTextures []] :=
  ⟨by decide, rfl,
    (move_assign_leaves_donor_empty recipient scenario_frame.1 scenario_frame.2).2.2.2.2.2.2.2.2.2
      _ scenario_context rfl⟩

end MusicVisualizer
